import Mathlib

/-!
Shallow embedding of `src/subscription/extractor.py` (the eZunder file
extractor) and proofs about it.

Modelling conventions:
* Python exceptions are values of `PyExn`; a computation that may raise
  returns `Except PyExn α`.  The stateful methods of `FileExtractor`
  (which mutate `self.extracted_files` and `self.errors`, and write to the
  filesystem) are modelled in `PyM`, a state-plus-exception function type
  over `ExtractorState`.
* Filesystem writes are recorded as a trace of `FsOp` operations in the
  state; `applyTrace` replays a trace onto a filesystem model `RealFS`.
  The program never reads the filesystem (the source archive is modelled
  as the already-loaded `FsEnv.loadResult`), so the trace semantics is
  exact.
* Filesystem failures are modelled by oracles in `FsEnv`: `mkdirFail p`
  (resp. `openWriteFail p`) is `some m` when `Path(p).mkdir(...)` (resp.
  `open(p, "w")` / the write into it) raises an exception whose `str` is
  `m`.
* `pathlib.PurePosixPath` is modelled by `PyPath`: a component list where
  parsing a segment string drops empty and "." components and an absolute
  segment restarts the path, matching pathlib.  Multiple leading slashes
  and symlink/OS details are out of scope.
* `str()`/`repr()` of non-string values and JSON serialisation are
  reproduced structurally; string escaping inside `repr`/`json.dump` and
  the `indent=2` layout of `json.dump` are abstracted (no claim depends
  on them).
-/

namespace EZunder

/-- Python exception values the extractor can raise or catch.  Each
constructor carries the string that Python `str(e)` would produce for it
(for `FileNotFoundError` the carried message is unused: the handler in
`extract_all` builds its own message). -/
inductive PyExn where
  | fileNotFound (m : String)
  | jsonDecode (m : String)
  | osError (m : String)
  | typeError (m : String)
  | nameError (m : String)
  | attrError (m : String)
  | keyError (m : String)
deriving DecidableEq, Repr

/-- Python `str(e)` of an exception value. -/
def PyExn.msg : PyExn → String
  | .fileNotFound m | .jsonDecode m | .osError m | .typeError m
  | .nameError m | .attrError m | .keyError m => m

/-- A parsed JSON document, as produced by `json.load`. -/
inductive JsonVal where
  | str (s : String)
  | num (n : Int)
  | bool (b : Bool)
  | null
  | list (xs : List JsonVal)
  | obj (kvs : List (String × JsonVal))
deriving Repr

/-- A single-quote character as a string (used to build Python error
messages and `repr` output). -/
def sq : String := String.mk [Char.ofNat 39]

/-- Python type name of a value, as it appears in error messages. -/
def pyTypeName : JsonVal → String
  | .str _ => "str"
  | .num _ => "int"
  | .bool _ => "bool"
  | .null => "NoneType"
  | .list _ => "list"
  | .obj _ => "dict"

mutual
/-- Python `repr` of a JSON value (string escaping abstracted). -/
def pyRepr : JsonVal → String
  | .str s => sq ++ s ++ sq
  | .num n => toString n
  | .bool b => if b then "True" else "False"
  | .null => "None"
  | .list xs => "[" ++ pyReprList xs ++ "]"
  | .obj kvs => "\x7b" ++ pyReprObj kvs ++ "\x7d"

/-- Comma-separated `repr` of list elements. -/
def pyReprList : List JsonVal → String
  | [] => ""
  | [x] => pyRepr x
  | x :: y :: rest => pyRepr x ++ ", " ++ pyReprList (y :: rest)

/-- Comma-separated `repr` of dict items. -/
def pyReprObj : List (String × JsonVal) → String
  | [] => ""
  | [(k, v)] => sq ++ k ++ sq ++ ": " ++ pyRepr v
  | (k, v) :: kv :: rest => sq ++ k ++ sq ++ ": " ++ pyRepr v ++ ", " ++ pyReprObj (kv :: rest)
end

/-- Python `str` of a JSON value (`str` of a string is itself; containers
and scalars print as their `repr`). -/
def pyStr : JsonVal → String
  | .str s => s
  | v => pyRepr v

/-- Python truthiness of a JSON value. -/
def pyTruthy : JsonVal → Bool
  | .str s => !(s == "")
  | .num n => !(n == 0)
  | .bool b => b
  | .null => false
  | .list xs => !xs.isEmpty
  | .obj kvs => !kvs.isEmpty

/-- Substring test on character lists (Python `needle in haystack` for
strings). -/
def charSub (needle : List Char) : List Char → Bool
  | [] => needle.isEmpty
  | c :: rest => needle.isPrefixOf (c :: rest) || charSub needle rest

/-- Python `key in v` for a string `key`: dict key lookup, list membership
(string elements only can match a string key), substring test on strings;
`TypeError` on non-container scalars. -/
def pyContains (v : JsonVal) (key : String) : Except PyExn Bool :=
  match v with
  | .obj kvs => .ok (kvs.any (fun kv => kv.1 == key))
  | .list xs => .ok (xs.any (fun x => match x with | .str t => t == key | _ => false))
  | .str s => .ok (charSub key.data s.data)
  | other => .error (.typeError ("argument of type " ++ sq ++ pyTypeName other ++ sq ++ " is not iterable"))

/-- Python `v[key]` for a string `key`: dict lookup (`KeyError` when the
key is absent), `TypeError` on every other shape. -/
def pySubscript (v : JsonVal) (key : String) : Except PyExn JsonVal :=
  match v with
  | .obj kvs =>
      match kvs.find? (fun kv => kv.1 == key) with
      | some kv => .ok kv.2
      | none => .error (.keyError (sq ++ key ++ sq))
  | .list _ => .error (.typeError "list indices must be integers or slices, not str")
  | .str _ => .error (.typeError "string indices must be integers")
  | other => .error (.typeError (sq ++ pyTypeName other ++ sq ++ " object is not subscriptable"))

/-- Python `v.get(key, default)`: defined on dicts; `AttributeError` on
everything else. -/
def pyGetD (v : JsonVal) (key : String) (dflt : JsonVal) : Except PyExn JsonVal :=
  match v with
  | .obj kvs => .ok (((kvs.find? (fun kv => kv.1 == key)).map Prod.snd).getD dflt)
  | other => .error (.attrError (sq ++ pyTypeName other ++ sq ++ " object has no attribute " ++ sq ++ "get" ++ sq))

/-- Python `v.lower()`: defined on strings; `AttributeError` otherwise. -/
def pyLower (v : JsonVal) : Except PyExn String :=
  match v with
  | .str s => .ok s.toLower
  | other => .error (.attrError (sq ++ pyTypeName other ++ sq ++ " object has no attribute " ++ sq ++ "lower" ++ sq))

/-- Whether a JSON value is a dict. -/
def isObj : JsonVal → Bool
  | .obj _ => true
  | _ => false

/-! ## The pathlib model -/

/-- Split a character list at every slash, keeping empty segments (so
`"/a"` yields an empty first segment and `"a//b"` an empty middle one). -/
def splitSlash : List Char → List (List Char)
  | [] => [[]]
  | c :: rest =>
      if c = Char.ofNat 47 then [] :: splitSlash rest
      else
        match splitSlash rest with
        | [] => [[c]]
        | g :: gs => (c :: g) :: gs

/-- Join segments with slashes (inverse of `splitSlash`). -/
def joinSlash : List (List Char) → List Char
  | [] => []
  | [g] => g
  | g :: g2 :: gs => g ++ Char.ofNat 47 :: joinSlash (g2 :: gs)

/-- Keep a path component: `pathlib` drops empty and "." segments when
parsing. -/
def keepComp (c : List Char) : Bool :=
  !(c.isEmpty) && !(c == [Char.ofNat 46])

/-- Component list of a path segment string, as pathlib parses it. -/
def segParts (s : String) : List (List Char) :=
  (splitSlash s.data).filter keepComp

/-- Whether a segment string is absolute (starts with a slash). -/
def segAbsolute (s : String) : Bool :=
  match s.data with
  | c :: _ => c = Char.ofNat 47
  | [] => false

/-- Model of `pathlib.PurePosixPath`: an absolute flag and the parsed
component list (no empty or "." components). -/
structure PyPath where
  absolute : Bool
  parts : List (List Char)
deriving DecidableEq, Repr

/-- Model of `pathlib.Path(s)`. -/
def pathOfString (s : String) : PyPath :=
  ⟨segAbsolute s, segParts s⟩

/-- Model of `p / s` on paths: an absolute right operand restarts the
path, otherwise its components are appended. -/
def pathJoin (p : PyPath) (s : String) : PyPath :=
  if segAbsolute s then ⟨true, segParts s⟩
  else ⟨p.absolute, p.parts ++ segParts s⟩

/-- Model of `str(p)`: components joined by slashes; the empty relative
path prints as ".". -/
def pathStr (p : PyPath) : String :=
  if p.absolute then String.mk (Char.ofNat 47 :: joinSlash p.parts)
  else if p.parts.isEmpty then "."
  else String.mk (joinSlash p.parts)

/-- Model of `p.parent`: drop the last component (the parent of a root or
empty path is itself, as in pathlib). -/
def pathParent (p : PyPath) : PyPath :=
  ⟨p.absolute, p.parts.dropLast⟩

/-! ## Extractor state and the Python computation type -/

/-- A filesystem mutation performed by the extractor.  `mkdir` stands for
`Path.mkdir(parents=True, exist_ok=True)` of the named directory. -/
inductive FsOp where
  | writeFile (path : String) (content : String)
  | mkdir (path : String)
deriving DecidableEq, Repr

/-- The mutable state of one `FileExtractor` run: the two lists the object
carries (`self.extracted_files`, `self.errors`) plus the trace of
filesystem operations performed so far. -/
structure ExtractorState where
  extracted_files : List String
  errors : List String
  trace : List FsOp
deriving DecidableEq, Repr

/-- The state of a freshly constructed `FileExtractor` (its `init` sets
both lists empty; no filesystem operation has happened). -/
def initState : ExtractorState := ⟨[], [], []⟩

/-- Append deltas to each field of the state (every operation of the
extractor only appends). -/
def stApp (s : ExtractorState) (dx de : List String) (dt : List FsOp) : ExtractorState :=
  ⟨s.extracted_files ++ dx, s.errors ++ de, s.trace ++ dt⟩

/-- A stateful Python computation: threads the extractor state and either
returns a value or raises an exception (state mutations made before the
raise persist, as in Python). -/
def PyM (α : Type) : Type := ExtractorState → ExtractorState × Except PyExn α

/-- Return a value. -/
def pyPure {α : Type} (a : α) : PyM α := fun s => (s, .ok a)

/-- Sequencing: an exception short-circuits, keeping the state reached so
far. -/
def pyBind {α β : Type} (m : PyM α) (k : α → PyM β) : PyM β := fun s =>
  match m s with
  | (s1, .ok a) => k a s1
  | (s1, .error e) => (s1, .error e)

/-- Raise an exception. -/
def pyThrow {α : Type} (e : PyExn) : PyM α := fun s => (s, .error e)

/-- Model of a `try`/`except` block: on an exception the handler runs from
the state the body had reached. -/
def pyTryCatch {α : Type} (m : PyM α) (h : PyExn → PyM α) : PyM α := fun s =>
  match m s with
  | (s1, .ok a) => (s1, .ok a)
  | (s1, .error e) => h e s1

/-- Lift a pure fallible computation. -/
def liftE {α : Type} (r : Except PyExn α) : PyM α := fun s => (s, r)

/-- Model of `self.errors.append(msg)`. -/
def appendError (msg : String) : PyM Unit := fun s =>
  ({ s with errors := s.errors ++ [msg] }, .ok ())

/-- Record a filesystem operation. -/
def emitOp (op : FsOp) : PyM Unit := fun s =>
  ({ s with trace := s.trace ++ [op] }, .ok ())

/-- Model of `self.extracted_files.append(p)`. -/
def appendExtracted (p : String) : PyM Unit := fun s =>
  ({ s with extracted_files := s.extracted_files ++ [p] }, .ok ())

/-- Constructor arguments of `FileExtractor`: the source path and the
output directory (already wrapped in `Path`, as `init` does). -/
structure FileExtractorCfg where
  json_file_path : String
  output_directory : PyPath

/-- The environment a run interacts with: the outcome of loading and
parsing the source archive, and the failure oracles for directory
creation and file writing (`none` means the operation succeeds). -/
structure FsEnv where
  loadResult : Except PyExn JsonVal
  mkdirFail : String → Option String
  openWriteFail : String → Option String

/-! ## `FileExtractor.validate_json_structure` (extractor.py lines 22-39)

The method only reads `data` and appends at most one diagnostic, so it is
factored into the pure check `validateV` (returning `none` for valid,
`some msg` for the diagnostic of the first failed check, or the exception
a membership test on a non-container raises) and a thin stateful wrapper. -/

/-- Diagnostic of check 1: `f"Missing required keys: ['project', 'files']"`. -/
def missingKeysMsg : String :=
  "Missing required keys: [" ++ sq ++ "project" ++ sq ++ ", " ++ sq ++ "files" ++ sq ++ "]"

/-- Diagnostic of check 3 for entry `i`. -/
def entryKeysMsg (i : Nat) : String :=
  "File " ++ toString i ++ " missing required keys: [" ++ sq ++ "name" ++ sq ++ ", "
    ++ sq ++ "content" ++ sq ++ ", " ++ sq ++ "suffix" ++ sq ++ "]"

/-- The check `all(key in file_obj for key in required_file_keys)`, with
Python short-circuit order (`name`, `content`, `suffix`). -/
def entryHasKeys (e : JsonVal) : Except PyExn Bool := do
  let b1 ← pyContains e "name"
  if !b1 then return false
  let b2 ← pyContains e "content"
  if !b2 then return false
  pyContains e "suffix"

/-- The `for i, file_obj in enumerate(data['files'])` loop of check 3:
returns the diagnostic of the first entry missing a required key. -/
def validateEntriesV : List JsonVal → Nat → Except PyExn (Option String)
  | [], _ => .ok none
  | e :: rest, i => do
      let ok ← entryHasKeys e
      if ok then validateEntriesV rest (i + 1)
      else return some (entryKeysMsg i)

/-- Pure core of `validate_json_structure`: checks 1 (both required keys),
2 (`files` is a list) and 3 (entry keys) in order. -/
def validateV (data : JsonVal) : Except PyExn (Option String) := do
  let b1 ← pyContains data "project"
  let both ← if b1 then pyContains data "files" else pure false
  if !both then return some missingKeysMsg
  let files ← pySubscript data "files"
  match files with
  | .list es => validateEntriesV es 0
  | _ => return some (sq ++ "files" ++ sq ++ " must be a list")

/-- Model of `FileExtractor.validate_json_structure`: appends the
diagnostic (if any) to `self.errors` and returns the verdict; a
`TypeError` raised by a membership test propagates. -/
def validate_json_structure (data : JsonVal) : PyM Bool := fun s =>
  match validateV data with
  | .ok none => (s, .ok true)
  | .ok (some m) => ({ s with errors := s.errors ++ [m] }, .ok false)
  | .error e => (s, .error e)

/-! ## `FileExtractor.create_directory_structure` (lines 41-48)

Appends a diagnostic on failure and then RE-RAISES the exception (the
method body ends in a bare `raise`). -/

/-- Model of `FileExtractor.create_directory_structure`. -/
def create_directory_structure (env : FsEnv) (cfg : FileExtractorCfg) : PyM Unit :=
  pyTryCatch
    (match env.mkdirFail (pathStr cfg.output_directory) with
     | some m => pyThrow (.osError m)
     | none => emitOp (.mkdir (pathStr cfg.output_directory)))
    (fun e =>
      pyBind (appendError ("Failed to create directory " ++ pathStr cfg.output_directory
                             ++ ": " ++ e.msg))
        (fun _ => pyThrow e))

/-! ## `FileExtractor.extract_file` (lines 50-78)

The `try` body is the pure `efTry` (returning the operations performed and
either the destination path string or the exception); the wrapper adds the
`except` clause, whose error message itself calls `file_obj.get` and so
raises `AttributeError` when the entry is not a dict. -/

/-- The `name` used in the failure message:
`file_obj.get('name', 'unknown')`, for a dict entry. -/
def entryNameD (kvs : List (String × JsonVal)) : JsonVal :=
  ((kvs.find? (fun kv => kv.1 == "name")).map Prod.snd).getD (.str "unknown")

/-- Open `file_path` for writing and write `content`: an opening failure
performs no operation; a successful open truncates the file, so a
`TypeError` from writing a non-string leaves an empty file behind. -/
def openAndWrite (env : FsEnv) (fp : PyPath) (content : JsonVal) (ops : List FsOp) :
    List FsOp × Except PyExn String :=
  let dest := pathStr fp
  match env.openWriteFail dest with
  | some m => (ops, .error (.osError m))
  | none =>
      match content with
      | .str c => (ops ++ [.writeFile dest c], .ok dest)
      | other => (ops ++ [.writeFile dest ""],
                  .error (.typeError ("write() argument must be str, not " ++ pyTypeName other)))

/-- The `try` body of `extract_file`: read the four fields, build the
destination (`output_directory / path / f"{name}.{suffix}"` when `path` is
truthy, creating the parent directory, else `output_directory /
f"{name}.{suffix}"`), then write the content. -/
def efTry (env : FsEnv) (cfg : FileExtractorCfg) (entry : JsonVal) :
    List FsOp × Except PyExn String :=
  match pySubscript entry "name" with
  | .error e => ([], .error e)
  | .ok name =>
  match pySubscript entry "content" with
  | .error e => ([], .error e)
  | .ok content =>
  match pySubscript entry "suffix" with
  | .error e => ([], .error e)
  | .ok suffix =>
  match pyGetD entry "path" (.str "") with
  | .error e => ([], .error e)
  | .ok path =>
  let fname := pyStr name ++ "." ++ pyStr suffix
  if pyTruthy path then
    match path with
    | .str p =>
        let fp := pathJoin (pathJoin cfg.output_directory p) fname
        match env.mkdirFail (pathStr (pathParent fp)) with
        | some m => ([], .error (.osError m))
        | none => openAndWrite env fp content [.mkdir (pathStr (pathParent fp))]
    | other =>
        ([], .error (.typeError ("argument should be a str or an os.PathLike object, not "
                                   ++ pyTypeName other)))
  else
    openAndWrite env (pathJoin cfg.output_directory fname) content []

/-- Model of `FileExtractor.extract_file`: on success records the
destination in `extracted_files` and returns `True`; on an exception the
`except` clause appends `f"Failed to extract file {file_obj.get('name',
'unknown')}: {e}"` and returns `False` - unless the entry is not a dict,
in which case `.get` itself raises and the `AttributeError` propagates. -/
def extract_file (env : FsEnv) (cfg : FileExtractorCfg) (entry : JsonVal) : PyM Bool := fun s =>
  match efTry env cfg entry with
  | (ops, .ok dest) =>
      ({ s with trace := s.trace ++ ops, extracted_files := s.extracted_files ++ [dest] },
       .ok true)
  | (ops, .error e) =>
      match entry with
      | .obj kvs =>
          ({ s with trace := s.trace ++ ops,
                    errors := s.errors ++ ["Failed to extract file " ++ pyStr (entryNameD kvs)
                                             ++ ": " ++ e.msg] },
           .ok false)
      | other =>
          ({ s with trace := s.trace ++ ops },
           .error (.attrError (sq ++ pyTypeName other ++ sq ++ " object has no attribute "
                                 ++ sq ++ "get" ++ sq)))

/-- The `for file_obj in data['files']` loop of `extract_all` (lines
195-198), threading `success_count`. -/
def extract_loop (env : FsEnv) (cfg : FileExtractorCfg) :
    List JsonVal → Nat → PyM Nat
  | [], count => pyPure count
  | e :: rest, count =>
      pyBind (extract_file env cfg e)
        (fun ok => extract_loop env cfg rest (if ok then count + 1 else count))

/-! ## `FileExtractor.create_package_json` (lines 80-143) -/

mutual
/-- JSON serialisation of a value, as `json.dump` emits it (string
escaping and the `indent=2` layout abstracted; field order faithful). -/
def jsonDump : JsonVal → String
  | .str s => "\"" ++ s ++ "\""
  | .num n => toString n
  | .bool b => if b then "true" else "false"
  | .null => "null"
  | .list xs => "[" ++ jsonDumpList xs ++ "]"
  | .obj kvs => "\x7b" ++ jsonDumpObj kvs ++ "\x7d"

/-- Comma-separated serialisation of array elements. -/
def jsonDumpList : List JsonVal → String
  | [] => ""
  | [x] => jsonDump x
  | x :: y :: rest => jsonDump x ++ ", " ++ jsonDumpList (y :: rest)

/-- Comma-separated serialisation of object members. -/
def jsonDumpObj : List (String × JsonVal) → String
  | [] => ""
  | [(k, v)] => "\"" ++ k ++ "\": " ++ jsonDump v
  | (k, v) :: kv :: rest => "\"" ++ k ++ "\": " ++ jsonDump v ++ ", " ++ jsonDumpObj (kv :: rest)
end

/-- The `package_json` dict of `create_package_json`, transcribed from
lines 82-131: three fields derived from the archive metadata, the rest a
fixed template. -/
def package_json_value (name : String) (version description : JsonVal) : JsonVal :=
  .obj
    [("name", .str name),
     ("version", version),
     ("description", description),
     ("private", .bool true),
     ("dependencies", .obj
        [("@auth0/auth0-react", .str "^2.2.4"),
         ("@stripe/stripe-js", .str "^2.4.0"),
         ("@testing-library/jest-dom", .str "^5.17.0"),
         ("@testing-library/react", .str "^13.4.0"),
         ("@testing-library/user-event", .str "^14.5.2"),
         ("@types/jest", .str "^27.5.2"),
         ("@types/node", .str "^16.18.68"),
         ("@types/react", .str "^18.2.42"),
         ("@types/react-dom", .str "^18.2.17"),
         ("axios", .str "^1.6.2"),
         ("react", .str "^18.2.0"),
         ("react-dom", .str "^18.2.0"),
         ("react-router-dom", .str "^6.20.1"),
         ("react-scripts", .str "5.0.1"),
         ("typescript", .str "^4.9.5"),
         ("web-vitals", .str "^2.1.4")]),
     ("scripts", .obj
        [("start", .str "react-scripts start"),
         ("build", .str "react-scripts build"),
         ("test", .str "react-scripts test"),
         ("eject", .str "react-scripts eject")]),
     ("eslintConfig", .obj
        [("extends", .list [.str "react-app", .str "react-app/jest"])]),
     ("browserslist", .obj
        [("production", .list [.str ">0.2%", .str "not dead", .str "not op_mini all"]),
         ("development", .list
            [.str "last 1 chrome version",
             .str "last 1 firefox version",
             .str "last 1 safari version"])]),
     ("devDependencies", .obj
        [("@types/testing-library__jest-dom", .str "^5.14.9"),
         ("tailwindcss", .str "^3.3.6"),
         ("autoprefixer", .str "^10.4.16"),
         ("postcss", .str "^8.4.32")])]

/-- Building the `package_json` dict happens BEFORE the `try` block, so
the `.lower()` call on a non-string `project` value raises an
`AttributeError` that `create_package_json` does not catch. -/
def buildPackageJson (data : JsonVal) : Except PyExn String := do
  let projectV ← pyGetD data "project" (.str "ezunder")
  let name ← pyLower projectV
  let versionV ← pyGetD data "version" (.str "1.0.0")
  let descV ← pyGetD data "description" (.str "eZunder ePublishing Platform")
  return jsonDump (package_json_value name versionV descV)

/-- Model of `FileExtractor.create_package_json`: build the dict, then
write it inside a `try` whose handler appends
`f"Failed to create package.json: {e}"`. -/
def create_package_json (env : FsEnv) (cfg : FileExtractorCfg) (data : JsonVal) : PyM Unit :=
  pyBind (liftE (buildPackageJson data)) (fun txt =>
    pyTryCatch
      (let package_path := pathStr (pathJoin cfg.output_directory "package.json")
       match env.openWriteFail package_path with
       | some m => pyThrow (.osError m)
       | none => emitOp (.writeFile package_path txt))
      (fun e => appendError ("Failed to create package.json: " ++ e.msg)))

/-! ## `FileExtractor.create_env_template` (lines 145-178)

The method writes `.env.example` and then contains a second, orphaned
`try` block (lines 172-178) that opens `README.md` and writes the variable
`readme_content`, which is defined nowhere: opening succeeds and truncates
the file, then the write raises `NameError`, which the block's own handler
converts into a logged error.  (A `create_readme` method that would define
`readme_content` does not exist in the source file.) -/

/-- The fixed `.env.example` template (lines 147-162). -/
def envContent : String :=
  "# eZunder Environment Variables\n"
    ++ "# Copy this file to .env and fill in your values\n\n"
    ++ "# API Configuration\n"
    ++ "REACT_APP_API_BASE_URL=http://localhost:3001/api\n\n"
    ++ "# Stripe Configuration\n"
    ++ "REACT_APP_STRIPE_PUBLISHABLE_KEY=pk_test_your_publishable_key_here\n"
    ++ "REACT_APP_STRIPE_STARTER_PRICE_ID=price_starter_id_here\n"
    ++ "REACT_APP_STRIPE_PROFESSIONAL_PRICE_ID=price_professional_id_here\n"
    ++ "REACT_APP_STRIPE_ENTERPRISE_PRICE_ID=price_enterprise_id_here\n\n"
    ++ "# Development\n"
    ++ "NODE_ENV=development\n"
    ++ "REACT_APP_VERSION=1.0.0\n"

/-- The `NameError` message of the orphaned README block. -/
def readmeNameErrorMsg : String :=
  "name " ++ sq ++ "readme_content" ++ sq ++ " is not defined"

/-- Model of `FileExtractor.create_env_template`, including the orphaned
README block. -/
def create_env_template (env : FsEnv) (cfg : FileExtractorCfg) : PyM Unit :=
  pyBind
    (pyTryCatch
      (let env_path := pathStr (pathJoin cfg.output_directory ".env.example")
       match env.openWriteFail env_path with
       | some m => pyThrow (.osError m)
       | none => emitOp (.writeFile env_path envContent))
      (fun e => appendError ("Failed to create .env.example: " ++ e.msg)))
    (fun _ =>
      pyTryCatch
        (let readme_path := pathStr (pathJoin cfg.output_directory "README.md")
         match env.openWriteFail readme_path with
         | some m => pyThrow (.osError m)
         | none =>
             pyBind (emitOp (.writeFile readme_path ""))
               (fun _ => pyThrow (.nameError readmeNameErrorMsg)))
        (fun e => appendError ("Failed to create README.md: " ++ e.msg)))

/-! ## `FileExtractor.extract_all` (lines 180-241) -/

/-- The `AttributeError` message of the `self.create_readme(data)` call on
line 207: the source file defines no `create_readme` method. -/
def createReadmeAttrMsg : String :=
  sq ++ "FileExtractor" ++ sq ++ " object has no attribute " ++ sq ++ "create_readme" ++ sq

/-- The `try` body of `extract_all` (lines 182-231): load, validate,
create the output directory, run the per-entry loop, generate the
scaffold files, call the missing `create_readme` (which raises), then the
summary tail (unreachable in the source as written).  The
`data['generated_date'] = datetime.now().isoformat()` assignment on line
206 mutates only the parsed dict and is omitted. -/
def extract_all_body (env : FsEnv) (cfg : FileExtractorCfg) : PyM Bool :=
  pyBind (liftE env.loadResult) (fun data =>
  pyBind (validate_json_structure data) (fun ok =>
  if !ok then pyPure false else
  pyBind (create_directory_structure env cfg) (fun _ =>
  pyBind (match pySubscript data "files" with
          | .ok (.list es) => extract_loop env cfg es 0
          | .ok other => pyThrow (.typeError (sq ++ pyTypeName other ++ sq
                                                ++ " object is not iterable"))
          | .error e => pyThrow e) (fun _count =>
  pyBind (create_package_json env cfg data) (fun _ =>
  pyBind (create_env_template env cfg) (fun _ =>
  pyBind (@pyThrow Unit (PyExn.attrError createReadmeAttrMsg)) (fun _ =>
  fun s => if s.errors.isEmpty then (s, .ok true) else (s, .ok false))))))))

/-- Model of `FileExtractor.extract_all`: the `try` body wrapped in the
three handlers of lines 233-241 (`FileNotFoundError`,
`json.JSONDecodeError`, then the catch-all `Exception`). -/
def extract_all (env : FsEnv) (cfg : FileExtractorCfg) : PyM Bool :=
  pyTryCatch (extract_all_body env cfg)
    (fun e =>
      match e with
      | .fileNotFound _ =>
          pyBind (appendError ("JSON file not found: " ++ cfg.json_file_path))
            (fun _ => pyPure false)
      | .jsonDecode m =>
          pyBind (appendError ("Invalid JSON format: " ++ m)) (fun _ => pyPure false)
      | e2 =>
          pyBind (appendError ("Unexpected error: " ++ e2.msg)) (fun _ => pyPure false))

/-! ## Replaying the filesystem trace -/

/-- A filesystem model: file contents by path, and the set of directories
created (as a duplicate-free-on-insert list). -/
structure RealFS where
  files : String → Option String
  dirs : List String

/-- Apply one operation: writing replaces the file content (mode "w"
truncates and overwrites); `mkdir` with `exist_ok=True` is a no-op on an
existing directory. -/
def applyOp (fs : RealFS) : FsOp → RealFS
  | .writeFile p c => { fs with files := fun q => if q = p then some c else fs.files q }
  | .mkdir d => if fs.dirs.contains d then fs else { fs with dirs := fs.dirs ++ [d] }

/-- Replay a trace in order. -/
def applyTrace (fs : RealFS) (t : List FsOp) : RealFS := t.foldl applyOp fs

/-- The filesystem effect of one full `extract_all` run from a fresh
extractor. -/
def runFS (env : FsEnv) (cfg : FileExtractorCfg) (fs : RealFS) : RealFS :=
  applyTrace fs ((extract_all env cfg initState).1.trace)

/-- Result of a dict lookup by key (value of the first matching pair). -/
def jsonLookup (kvs : List (String × JsonVal)) (k : String) : Option JsonVal :=
  (kvs.find? (fun kv => kv.1 == k)).map Prod.snd

/-- Whether an `Except` is a normal return. -/
def exceptOk {α : Type} : Except PyExn α → Bool
  | .ok _ => true
  | .error _ => false

/-- The last content written to `p` by a trace, if any. -/
def lastWrite : List FsOp → String → Option String
  | [], _ => none
  | op :: t, p =>
      match lastWrite t p with
      | some c => some c
      | none =>
          match op with
          | .writeFile q c => if q = p then some c else none
          | .mkdir _ => none

/-- The directories a trace creates, in order. -/
def traceDirs : List FsOp → List String
  | [] => []
  | .mkdir d :: t => d :: traceDirs t
  | .writeFile _ _ :: t => traceDirs t

/-- The check of entry keys as a pure boolean, for a dict entry. -/
def entryHasKeysB (kvs : List (String × JsonVal)) : Bool :=
  kvs.any (fun kv => kv.1 == "name") &&
    (kvs.any (fun kv => kv.1 == "content") && kvs.any (fun kv => kv.1 == "suffix"))

/-- Whether a file entry carries all three required keys (false for
non-dict entries). -/
def entryHasAllKeys : JsonVal → Bool
  | .obj kvs => entryHasKeysB kvs
  | _ => false

/-! ## Concrete runs used by the claim theorems and witnesses -/

/-- The configuration of the default command line: source
`ezunder_files.json`, output directory `ezunder_extracted`. -/
def cfgW : FileExtractorCfg := ⟨"ezunder_files.json", pathOfString "ezunder_extracted"⟩

/-- An empty filesystem. -/
def fs0 : RealFS := ⟨fun _ => none, []⟩

/-- The key-value pairs of a minimal well-formed archive with one valid
entry. -/
def kvsA1 : List (String × JsonVal) :=
  [("project", .str "eZunder"),
   ("files", .list [.obj [("name", .str "a"), ("content", .str "hello"),
                          ("suffix", .str "txt")]])]

/-- A minimal well-formed archive with one valid entry. -/
def archC1 : JsonVal := .obj kvsA1

/-- A run of `archC1` in which every filesystem operation succeeds. -/
def envC1 : FsEnv := ⟨.ok archC1, fun _ => none, fun _ => none⟩

/-- A second minimal well-formed archive. -/
def archC2 : JsonVal :=
  .obj [("project", .str "Demo"),
        ("files", .list [.obj [("name", .str "idx"), ("content", .str "body"),
                               ("suffix", .str "js")]])]

/-- A run of `archC2` in which every filesystem operation succeeds. -/
def envC2 : FsEnv := ⟨.ok archC2, fun _ => none, fun _ => none⟩

/-- An archive whose single entry misses `content`. -/
def archC4 : JsonVal :=
  .obj [("project", .str "p"),
        ("files", .list [.obj [("name", .str "a"), ("suffix", .str "txt")]])]

/-- A run of `archC4`. -/
def envC4 : FsEnv := ⟨.ok archC4, fun _ => none, fun _ => none⟩

/-- A file entry that is a JSON array, not an object; it still passes
validation because the three required keys are members of the array. -/
def entryL : JsonVal := .list [.str "name", .str "content", .str "suffix"]

/-- An archive whose first entry is `entryL` and whose second entry is a
valid object entry. -/
def archC5 : JsonVal :=
  .obj [("project", .str "p"),
        ("files", .list [entryL, .obj [("name", .str "b"), ("content", .str "y"),
                                       ("suffix", .str "txt")]])]

/-- A run of `archC5` in which every filesystem operation succeeds. -/
def envC5 : FsEnv := ⟨.ok archC5, fun _ => none, fun _ => none⟩

/-- A valid dict entry used for the write-failure witness. -/
def kvsW5 : List (String × JsonVal) :=
  [("name", .str "a"), ("content", .str "x"), ("suffix", .str "txt")]

/-- A run in which every file write raises (disk full) but directory
creation succeeds. -/
def envW5 : FsEnv :=
  ⟨.ok (.obj [("project", .str "p"), ("files", .list [.obj kvsW5])]),
   fun _ => none, fun _ => some "No space left on device"⟩

/-- A run whose source file is missing. -/
def envC7 : FsEnv := ⟨.error (.fileNotFound "missing"), fun _ => none, fun _ => none⟩

/-- A run in which creating the output directory raises. -/
def envC8 : FsEnv := ⟨.ok archC1, fun _ => some "Permission denied", fun _ => none⟩

/-- A run environment for single-entry path experiments (the archive is
irrelevant to `extract_file`). -/
def envOK : FsEnv := ⟨.ok .null, fun _ => none, fun _ => none⟩

/-- An entry whose `path` is `"."`: truthy and non-empty, yet collapsed
away by pathlib. -/
def entryDot : JsonVal :=
  .obj [("name", .str "a"), ("content", .str "x"), ("suffix", .str "txt"),
        ("path", .str ".")]

/-- Shape condition under which the validator cannot raise: when the
archive dict has a `files` list, all its elements are dicts. -/
def entriesAllObjB (kvs : List (String × JsonVal)) : Bool :=
  match jsonLookup kvs "files" with
  | some (.list es) => es.all isObj
  | _ => true

/-- A path segment string is clean when pathlib parsing keeps all of its
slash-separated components: none is empty (so no leading, trailing or
doubled slash) and none is ".". -/
def cleanSeg (s : String) : Bool :=
  (splitSlash s.data).all keepComp

/-! ## State-shape lemmas: every operation only appends to the state -/

theorem stApp_nil (s : ExtractorState) : stApp s [] [] [] = s := by
  simp [stApp]

theorem stApp_stApp (s : ExtractorState) (a b e : List String) (c f : List FsOp)
    (d : List String) :
    stApp (stApp s a b c) d e f = stApp s (a ++ d) (b ++ e) (c ++ f) := by
  simp [stApp]

theorem errors_stApp (s : ExtractorState) (dx de : List String) (dt : List FsOp) :
    (stApp s dx de dt).errors = s.errors ++ de := rfl

/-- Shape of `validate_json_structure` when the archive is valid. -/
theorem validate_shape_ok {data : JsonVal} (h : validateV data = .ok none)
    (s : ExtractorState) : validate_json_structure data s = (s, .ok true) := by
  simp [validate_json_structure, h]

/-- Shape of `validate_json_structure` when a check fails: exactly the
diagnostic is appended and the verdict is `False`. -/
theorem validate_shape_bad {data : JsonVal} {m : String}
    (h : validateV data = .ok (some m)) (s : ExtractorState) :
    validate_json_structure data s = (stApp s [] [m] [], .ok false) := by
  simp [validate_json_structure, h, stApp]

/-- Shape of `validate_json_structure` when a membership test raises. -/
theorem validate_shape_raise {data : JsonVal} {e : PyExn}
    (h : validateV data = .error e) (s : ExtractorState) :
    validate_json_structure data s = (s, .error e) := by
  simp [validate_json_structure, h]

/-- `create_directory_structure` on a mkdir failure appends its diagnostic
and RE-RAISES the exception. -/
theorem cds_shape_fail {env : FsEnv} {cfg : FileExtractorCfg} {m : String}
    (h : env.mkdirFail (pathStr cfg.output_directory) = some m) (s : ExtractorState) :
    create_directory_structure env cfg s =
      (stApp s [] ["Failed to create directory " ++ pathStr cfg.output_directory ++ ": " ++ m]
         [], .error (.osError m)) := by
  simp [create_directory_structure, h, pyTryCatch, pyThrow, pyBind, appendError, PyExn.msg,
    stApp]

/-- `create_directory_structure` on success records the mkdir. -/
theorem cds_shape_ok {env : FsEnv} {cfg : FileExtractorCfg}
    (h : env.mkdirFail (pathStr cfg.output_directory) = none) (s : ExtractorState) :
    create_directory_structure env cfg s =
      (stApp s [] [] [.mkdir (pathStr cfg.output_directory)], .ok ()) := by
  simp [create_directory_structure, h, pyTryCatch, emitOp, stApp]

/-- Every outcome of `extract_file` only appends to the state. -/
theorem extract_file_shape (env : FsEnv) (cfg : FileExtractorCfg) (entry : JsonVal)
    (s : ExtractorState) :
    ∃ dx de dt r, extract_file env cfg entry s = (stApp s dx de dt, r) := by
  rcases h : efTry env cfg entry with ⟨ops, res⟩
  cases res with
  | ok dest =>
      exact ⟨[dest], [], ops, .ok true, by simp [extract_file, h, stApp]⟩
  | error e =>
      cases entry with
      | obj kvs =>
          exact ⟨[], ["Failed to extract file " ++ pyStr (entryNameD kvs) ++ ": " ++ e.msg],
            ops, .ok false, by simp [extract_file, h, stApp]⟩
      | str a =>
          exact ⟨[], [], ops, .error (.attrError (sq ++ "str" ++ sq ++ " object has no attribute "
            ++ sq ++ "get" ++ sq)), by simp [extract_file, h, stApp, pyTypeName]⟩
      | num a =>
          exact ⟨[], [], ops, .error (.attrError (sq ++ "int" ++ sq ++ " object has no attribute "
            ++ sq ++ "get" ++ sq)), by simp [extract_file, h, stApp, pyTypeName]⟩
      | bool a =>
          exact ⟨[], [], ops, .error (.attrError (sq ++ "bool" ++ sq ++ " object has no attribute "
            ++ sq ++ "get" ++ sq)), by simp [extract_file, h, stApp, pyTypeName]⟩
      | null =>
          exact ⟨[], [], ops, .error (.attrError (sq ++ "NoneType" ++ sq
            ++ " object has no attribute " ++ sq ++ "get" ++ sq)),
            by simp [extract_file, h, stApp, pyTypeName]⟩
      | list a =>
          exact ⟨[], [], ops, .error (.attrError (sq ++ "list" ++ sq ++ " object has no attribute "
            ++ sq ++ "get" ++ sq)), by simp [extract_file, h, stApp, pyTypeName]⟩

/-- The per-entry loop only appends to the state. -/
theorem extract_loop_shape (env : FsEnv) (cfg : FileExtractorCfg) (es : List JsonVal) :
    ∀ (count : Nat) (s : ExtractorState),
      ∃ dx de dt r, extract_loop env cfg es count s = (stApp s dx de dt, r) := by
  induction es with
  | nil =>
      intro count s
      exact ⟨[], [], [], .ok count, by simp [extract_loop, pyPure, stApp]⟩
  | cons e rest ih =>
      intro count s
      obtain ⟨dx, de, dt, r, hf⟩ := extract_file_shape env cfg e s
      cases r with
      | ok b =>
          obtain ⟨dx2, de2, dt2, r2, hl⟩ := ih (if b then count + 1 else count) (stApp s dx de dt)
          refine ⟨dx ++ dx2, de ++ de2, dt ++ dt2, r2, ?_⟩
          simp [extract_loop, pyBind, hf, hl, stApp_stApp]
      | error e2 =>
          refine ⟨dx, de, dt, .error e2, ?_⟩
          simp [extract_loop, pyBind, hf]

/-- `create_package_json` propagates an exception raised while building
the dict (this happens before its `try` block). -/
theorem cpj_shape_build_fail {data : JsonVal} {e : PyExn}
    (h : buildPackageJson data = .error e) (env : FsEnv) (cfg : FileExtractorCfg)
    (s : ExtractorState) : create_package_json env cfg data s = (s, .error e) := by
  simp [create_package_json, pyBind, liftE, h]

/-- Once the dict is built, `create_package_json` returns normally: both
the write and the handler only append. -/
theorem cpj_shape_ok {data : JsonVal} {txt : String}
    (h : buildPackageJson data = .ok txt) (env : FsEnv) (cfg : FileExtractorCfg)
    (s : ExtractorState) :
    ∃ de dt, create_package_json env cfg data s = (stApp s [] de dt, .ok ()) := by
  rcases hw : env.openWriteFail (pathStr (pathJoin cfg.output_directory "package.json")) with
    _ | m
  · exact ⟨[], [.writeFile (pathStr (pathJoin cfg.output_directory "package.json")) txt],
      by simp [create_package_json, pyBind, liftE, h, pyTryCatch, hw, emitOp, stApp]⟩
  · exact ⟨["Failed to create package.json: " ++ m], [],
      by simp [create_package_json, pyBind, liftE, h, pyTryCatch, hw, pyThrow, appendError,
        PyExn.msg, stApp]⟩

/-- `create_env_template` always returns normally (each of its two `try`
blocks has a catch-all handler) and only appends to the state. -/
theorem cet_shape (env : FsEnv) (cfg : FileExtractorCfg) (s : ExtractorState) :
    ∃ de dt, create_env_template env cfg s = (stApp s [] de dt, .ok ()) := by
  rcases hw1 : env.openWriteFail (pathStr (pathJoin cfg.output_directory ".env.example")) with
    _ | m1 <;>
    rcases hw2 : env.openWriteFail (pathStr (pathJoin cfg.output_directory "README.md")) with
      _ | m2
  · exact ⟨["Failed to create README.md: " ++ readmeNameErrorMsg],
      [.writeFile (pathStr (pathJoin cfg.output_directory ".env.example")) envContent,
       .writeFile (pathStr (pathJoin cfg.output_directory "README.md")) ""],
      by simp [create_env_template, pyBind, pyTryCatch, hw1, hw2, emitOp, pyThrow,
        appendError, PyExn.msg, stApp]⟩
  · exact ⟨["Failed to create README.md: " ++ m2],
      [.writeFile (pathStr (pathJoin cfg.output_directory ".env.example")) envContent],
      by simp [create_env_template, pyBind, pyTryCatch, hw1, hw2, emitOp, pyThrow,
        appendError, PyExn.msg, stApp]⟩
  · exact ⟨["Failed to create .env.example: " ++ m1,
       "Failed to create README.md: " ++ readmeNameErrorMsg],
      [.writeFile (pathStr (pathJoin cfg.output_directory "README.md")) ""],
      by simp [create_env_template, pyBind, pyTryCatch, hw1, hw2, emitOp, pyThrow,
        appendError, PyExn.msg, stApp]⟩
  · exact ⟨["Failed to create .env.example: " ++ m1, "Failed to create README.md: " ++ m2], [],
      by simp [create_env_template, pyBind, pyTryCatch, hw1, hw2, emitOp, pyThrow,
        appendError, PyExn.msg, stApp]⟩

/-- Reduction of `pyBind` when the first computation returns. -/
theorem pyBind_eq_ok {α β : Type} {m : PyM α} {s s1 : ExtractorState} {a : α}
    (h : m s = (s1, .ok a)) (k : α → PyM β) : pyBind m k s = k a s1 := by
  simp [pyBind, h]

/-- Reduction of `pyBind` when the first computation raises. -/
theorem pyBind_eq_error {α β : Type} {m : PyM α} {s s1 : ExtractorState} {e : PyExn}
    (h : m s = (s1, .error e)) (k : α → PyM β) : pyBind m k s = (s1, .error e) := by
  simp [pyBind, h]

/-- Reduction of `pyTryCatch` when the body returns. -/
theorem pyTryCatch_eq_ok {α : Type} {m : PyM α} {s s1 : ExtractorState} {a : α}
    (h : m s = (s1, .ok a)) (hdl : PyExn → PyM α) : pyTryCatch m hdl s = (s1, .ok a) := by
  simp [pyTryCatch, h]

/-- Reduction of `pyTryCatch` when the body raises: the handler runs from
the state the body reached. -/
theorem pyTryCatch_eq_error {α : Type} {m : PyM α} {s s1 : ExtractorState} {e : PyExn}
    (h : m s = (s1, .error e)) (hdl : PyExn → PyM α) : pyTryCatch m hdl s = hdl e s1 := by
  simp [pyTryCatch, h]

/-- Central shape of the `try` body of `extract_all`: it only appends to
the state, and it either raises or returns `False` with at least one new
error (the valid-archive path always ends in the `create_readme`
`AttributeError`; the only normal `False` return is the validation
failure, which logs its diagnostic). -/
theorem extract_all_body_shape (env : FsEnv) (cfg : FileExtractorCfg) (s : ExtractorState) :
    ∃ dx de dt r, extract_all_body env cfg s = (stApp s dx de dt, r) ∧
      (∀ b, r = .ok b → b = false ∧ de ≠ []) := by
  cases hl : env.loadResult with
  | error e =>
      refine ⟨[], [], [], .error e, ?_, by simp⟩
      unfold extract_all_body
      rw [pyBind_eq_error (show liftE env.loadResult s = (s, Except.error e) by
        simp [liftE, hl]), stApp_nil]
  | ok data =>
    have h1 : liftE env.loadResult s = (s, Except.ok data) := by simp [liftE, hl]
    cases hv : validateV data with
    | error e =>
      refine ⟨[], [], [], .error e, ?_, by simp⟩
      unfold extract_all_body
      rw [pyBind_eq_ok h1, pyBind_eq_error (validate_shape_raise hv s), stApp_nil]
    | ok vr =>
      cases vr with
      | some m =>
          refine ⟨[], [m], [], .ok false, ?_, by simp⟩
          unfold extract_all_body
          rw [pyBind_eq_ok h1, pyBind_eq_ok (validate_shape_bad hv s), if_pos (by decide)]
          simp [pyPure]
      | none =>
        cases hm : env.mkdirFail (pathStr cfg.output_directory) with
        | some m =>
          refine ⟨[], ["Failed to create directory " ++ pathStr cfg.output_directory
            ++ ": " ++ m], [], .error (.osError m), ?_, by simp⟩
          unfold extract_all_body
          rw [pyBind_eq_ok h1, pyBind_eq_ok (validate_shape_ok hv s), if_neg (by decide),
            pyBind_eq_error (cds_shape_fail hm s)]
        | none =>
          cases hsub : pySubscript data "files" with
          | error e =>
            refine ⟨[], [], [.mkdir (pathStr cfg.output_directory)], .error e, ?_, by simp⟩
            unfold extract_all_body
            rw [pyBind_eq_ok h1, pyBind_eq_ok (validate_shape_ok hv s), if_neg (by decide),
              pyBind_eq_ok (cds_shape_ok hm s), hsub]
            rw [pyBind_eq_error (show pyThrow e _ = (_, Except.error e) from rfl)]
          | ok files =>
            cases files with
            | list es =>
              obtain ⟨dx, de, dt, r, hloop⟩ :=
                extract_loop_shape env cfg es 0
                  (stApp s [] [] [.mkdir (pathStr cfg.output_directory)])
              cases r with
              | error e =>
                  refine ⟨dx, de, [.mkdir (pathStr cfg.output_directory)] ++ dt, .error e, ?_,
                    by simp⟩
                  unfold extract_all_body
                  rw [pyBind_eq_ok h1, pyBind_eq_ok (validate_shape_ok hv s),
                    if_neg (by decide), pyBind_eq_ok (cds_shape_ok hm s), hsub,
                    pyBind_eq_error hloop, stApp_stApp]
                  simp
              | ok cnt =>
                cases hb : buildPackageJson data with
                | error e =>
                  refine ⟨dx, de, [.mkdir (pathStr cfg.output_directory)] ++ dt, .error e, ?_,
                    by simp⟩
                  unfold extract_all_body
                  rw [pyBind_eq_ok h1, pyBind_eq_ok (validate_shape_ok hv s),
                    if_neg (by decide), pyBind_eq_ok (cds_shape_ok hm s), hsub,
                    pyBind_eq_ok hloop,
                    pyBind_eq_error (cpj_shape_build_fail hb env cfg _), stApp_stApp]
                  simp
                | ok txt =>
                  obtain ⟨de2, dt2, hcpj⟩ := cpj_shape_ok hb env cfg
                    (stApp (stApp s [] [] [.mkdir (pathStr cfg.output_directory)]) dx de dt)
                  obtain ⟨de3, dt3, hcet⟩ := cet_shape env cfg
                    (stApp (stApp (stApp s [] [] [.mkdir (pathStr cfg.output_directory)])
                      dx de dt) [] de2 dt2)
                  refine ⟨dx, de ++ de2 ++ de3,
                    [.mkdir (pathStr cfg.output_directory)] ++ dt ++ dt2 ++ dt3,
                    .error (.attrError createReadmeAttrMsg), ?_, by simp⟩
                  unfold extract_all_body
                  rw [pyBind_eq_ok h1, pyBind_eq_ok (validate_shape_ok hv s),
                    if_neg (by decide), pyBind_eq_ok (cds_shape_ok hm s), hsub,
                    pyBind_eq_ok hloop, pyBind_eq_ok hcpj, pyBind_eq_ok hcet,
                    pyBind_eq_error (show @pyThrow Unit (PyExn.attrError createReadmeAttrMsg) _
                      = (_, Except.error (PyExn.attrError createReadmeAttrMsg)) from rfl),
                    stApp_stApp, stApp_stApp, stApp_stApp]
                  simp
            | str a =>
                refine ⟨[], [], [.mkdir (pathStr cfg.output_directory)],
                  .error (.typeError (sq ++ "str" ++ sq ++ " object is not iterable")), ?_,
                  by simp⟩
                unfold extract_all_body
                rw [pyBind_eq_ok h1, pyBind_eq_ok (validate_shape_ok hv s), if_neg (by decide),
                  pyBind_eq_ok (cds_shape_ok hm s), hsub]
                exact pyBind_eq_error rfl _
            | num a =>
                refine ⟨[], [], [.mkdir (pathStr cfg.output_directory)],
                  .error (.typeError (sq ++ "int" ++ sq ++ " object is not iterable")), ?_,
                  by simp⟩
                unfold extract_all_body
                rw [pyBind_eq_ok h1, pyBind_eq_ok (validate_shape_ok hv s), if_neg (by decide),
                  pyBind_eq_ok (cds_shape_ok hm s), hsub]
                exact pyBind_eq_error rfl _
            | bool a =>
                refine ⟨[], [], [.mkdir (pathStr cfg.output_directory)],
                  .error (.typeError (sq ++ "bool" ++ sq ++ " object is not iterable")), ?_,
                  by simp⟩
                unfold extract_all_body
                rw [pyBind_eq_ok h1, pyBind_eq_ok (validate_shape_ok hv s), if_neg (by decide),
                  pyBind_eq_ok (cds_shape_ok hm s), hsub]
                exact pyBind_eq_error rfl _
            | null =>
                refine ⟨[], [], [.mkdir (pathStr cfg.output_directory)],
                  .error (.typeError (sq ++ "NoneType" ++ sq ++ " object is not iterable")),
                  ?_, by simp⟩
                unfold extract_all_body
                rw [pyBind_eq_ok h1, pyBind_eq_ok (validate_shape_ok hv s), if_neg (by decide),
                  pyBind_eq_ok (cds_shape_ok hm s), hsub]
                exact pyBind_eq_error rfl _
            | obj kvs =>
                refine ⟨[], [], [.mkdir (pathStr cfg.output_directory)],
                  .error (.typeError (sq ++ "dict" ++ sq ++ " object is not iterable")), ?_,
                  by simp⟩
                unfold extract_all_body
                rw [pyBind_eq_ok h1, pyBind_eq_ok (validate_shape_ok hv s), if_neg (by decide),
                  pyBind_eq_ok (cds_shape_ok hm s), hsub]
                exact pyBind_eq_error rfl _

/-- Each branch of the `except` ladder of `extract_all` appends one error
and returns `False`. -/
theorem handler_branch_shape (msg : String) (s : ExtractorState) :
    pyBind (appendError msg) (fun _ => pyPure false) s = (stApp s [] [msg] [], .ok false) := by
  simp [pyBind, appendError, pyPure, stApp]

/-- Outcome of every `extract_all` run: the state only grows, at least one
error is appended, and the returned verdict is `False` - on every input.
(The valid-archive path is cut short by the missing `create_readme`
method, whose `AttributeError` lands in the catch-all handler; all other
paths append their own diagnostics.) -/
theorem extract_all_result (env : FsEnv) (cfg : FileExtractorCfg) (s : ExtractorState) :
    ∃ dx de dt, de ≠ [] ∧ extract_all env cfg s = (stApp s dx de dt, .ok false) := by
  obtain ⟨dx, de, dt, r, hbody, hok⟩ := extract_all_body_shape env cfg s
  cases r with
  | ok b =>
      obtain ⟨hb, hde⟩ := hok b rfl
      subst hb
      exact ⟨dx, de, dt, hde, by rw [extract_all, pyTryCatch_eq_ok hbody]⟩
  | error e =>
      have hstep : ∀ msg : String,
          (stApp (stApp s dx de dt) [] [msg] [], (Except.ok false : Except PyExn Bool)) =
            (stApp s dx (de ++ [msg]) dt, .ok false) := by
        intro msg; rw [stApp_stApp]; simp
      cases e with
      | fileNotFound m =>
          exact ⟨dx, de ++ ["JSON file not found: " ++ cfg.json_file_path], dt, by simp,
            by rw [extract_all, pyTryCatch_eq_error hbody]
               exact hstep _ ▸ handler_branch_shape _ _⟩
      | jsonDecode m =>
          exact ⟨dx, de ++ ["Invalid JSON format: " ++ m], dt, by simp,
            by rw [extract_all, pyTryCatch_eq_error hbody]
               exact hstep _ ▸ handler_branch_shape _ _⟩
      | osError m =>
          exact ⟨dx, de ++ ["Unexpected error: " ++ m], dt, by simp,
            by rw [extract_all, pyTryCatch_eq_error hbody]
               exact hstep _ ▸ handler_branch_shape _ _⟩
      | typeError m =>
          exact ⟨dx, de ++ ["Unexpected error: " ++ m], dt, by simp,
            by rw [extract_all, pyTryCatch_eq_error hbody]
               exact hstep _ ▸ handler_branch_shape _ _⟩
      | nameError m =>
          exact ⟨dx, de ++ ["Unexpected error: " ++ m], dt, by simp,
            by rw [extract_all, pyTryCatch_eq_error hbody]
               exact hstep _ ▸ handler_branch_shape _ _⟩
      | attrError m =>
          exact ⟨dx, de ++ ["Unexpected error: " ++ m], dt, by simp,
            by rw [extract_all, pyTryCatch_eq_error hbody]
               exact hstep _ ▸ handler_branch_shape _ _⟩
      | keyError m =>
          exact ⟨dx, de ++ ["Unexpected error: " ++ m], dt, by simp,
            by rw [extract_all, pyTryCatch_eq_error hbody]
               exact hstep _ ▸ handler_branch_shape _ _⟩

/-! ## Replay lemmas: the file contents and directories a trace leaves -/

/-- File contents after replaying a trace: the last write to the path
wins; a path never written keeps its prior content. -/
theorem applyTrace_files (t : List FsOp) : ∀ (fs : RealFS) (p : String),
    (applyTrace fs t).files p =
      match lastWrite t p with
      | some c => some c
      | none => fs.files p := by
  induction t with
  | nil => intro fs p; simp [applyTrace, lastWrite]
  | cons op rest ih =>
      intro fs p
      have hstep : applyTrace fs (op :: rest) = applyTrace (applyOp fs op) rest := rfl
      rw [hstep, ih]
      cases hlw : lastWrite rest p with
      | some c => simp [lastWrite, hlw]
      | none =>
          cases op with
          | mkdir d =>
              have : (applyOp fs (.mkdir d)).files = fs.files := by
                simp only [applyOp]; split <;> rfl
              simp [lastWrite, hlw, this]
          | writeFile q c =>
              by_cases hq : q = p
              · subst hq; simp [lastWrite, hlw, applyOp]
              · simp [lastWrite, hlw, applyOp, hq, Ne.symm hq]

/-- Membership in the directory list after one `mkdir` (idempotent on an
existing directory). -/
theorem mem_applyOp_mkdir (fs : RealFS) (d2 d : String) :
    d ∈ (applyOp fs (.mkdir d2)).dirs ↔ d = d2 ∨ d ∈ fs.dirs := by
  by_cases hc : fs.dirs.contains d2 = true
  · have hd2 : d2 ∈ fs.dirs := by simpa using hc
    rw [show applyOp fs (.mkdir d2) = fs from if_pos hc]
    constructor
    · exact Or.inr
    · rintro (rfl | h)
      · exact hd2
      · exact h
  · rw [show applyOp fs (.mkdir d2) = { fs with dirs := fs.dirs ++ [d2] } from if_neg hc]
    simp [or_comm]

/-- Directory membership after replaying a trace. -/
theorem applyTrace_dirs (t : List FsOp) : ∀ (fs : RealFS) (d : String),
    d ∈ (applyTrace fs t).dirs ↔ d ∈ traceDirs t ∨ d ∈ fs.dirs := by
  induction t with
  | nil => intro fs d; simp [applyTrace, traceDirs]
  | cons op rest ih =>
      intro fs d
      have hstep : applyTrace fs (op :: rest) = applyTrace (applyOp fs op) rest := rfl
      rw [hstep, ih]
      cases op with
      | writeFile q c => simp [applyOp, traceDirs]
      | mkdir d2 =>
          simp only [traceDirs, List.mem_cons, mem_applyOp_mkdir]
          tauto

/-! ## Claim theorems -/

/-- C3: for every input, the boolean returned by `extract_all` is `true`
if and only if the error log is empty when the run completes.  (Both
sides are in fact always false: every run of the source as written
appends at least one error and returns `False`.) -/
theorem extract_all_true_iff_errors_empty (env : FsEnv) (cfg : FileExtractorCfg) :
    ∃ s b, extract_all env cfg initState = (s, .ok b) ∧ (b = true ↔ s.errors = []) := by
  obtain ⟨dx, de, dt, hde, h⟩ := extract_all_result env cfg initState
  exact ⟨stApp initState dx de dt, false, h, by simp [stApp, initState, hde]⟩

/-- C10: `extract_all` is total at the caller boundary: for every source
outcome, every parsed document shape and every filesystem failure
pattern, it returns a boolean and never lets an exception propagate
(its final handler catches every exception). -/
theorem extract_all_total_returns_bool (env : FsEnv) (cfg : FileExtractorCfg)
    (s : ExtractorState) : ∃ s2 b, extract_all env cfg s = (s2, .ok b) := by
  obtain ⟨dx, de, dt, _, h⟩ := extract_all_result env cfg s
  exact ⟨stApp s dx de dt, false, h⟩

/-- C9: running extraction twice with the same archive into the same
output directory is idempotent: for every archive that passes validation
(and in fact for every input), file contents and directory membership
after the second run equal those after the first. -/
theorem extract_twice_idempotent (env : FsEnv) (cfg : FileExtractorCfg) (data : JsonVal)
    (hl : env.loadResult = .ok data) (hv : validateV data = .ok none) (fs : RealFS) :
    (∀ p, (runFS env cfg (runFS env cfg fs)).files p = (runFS env cfg fs).files p) ∧
      (∀ d, d ∈ (runFS env cfg (runFS env cfg fs)).dirs ↔ d ∈ (runFS env cfg fs).dirs) := by
  constructor
  · intro p
    rw [runFS, runFS, applyTrace_files, applyTrace_files]
    cases hlw : lastWrite (extract_all env cfg initState).1.trace p with
    | some c => rfl
    | none => rfl
  · intro d
    rw [runFS, runFS, applyTrace_dirs, applyTrace_dirs]
    tauto

/-- On a dict entry the key check computes `entryHasKeysB` and never
raises. -/
theorem entryHasKeys_obj (kvs : List (String × JsonVal)) :
    entryHasKeys (.obj kvs) = .ok (entryHasKeysB kvs) := by
  cases h1 : kvs.any (fun kv => kv.1 == "name") <;>
    cases h2 : kvs.any (fun kv => kv.1 == "content") <;>
    cases h3 : kvs.any (fun kv => kv.1 == "suffix") <;>
    simp [entryHasKeys, entryHasKeysB, pyContains, h1, h2, h3, Bind.bind, Except.bind,
      pure, Except.pure]

/-- If every entry is a dict and some entry misses a required key, the
entry loop of the validator reports the first offender. -/
theorem validateEntriesV_bad :
    ∀ (es : List JsonVal) (i : Nat), (∀ e ∈ es, isObj e = true) →
      es.any (fun e => !entryHasAllKeys e) = true →
      ∃ m, validateEntriesV es i = .ok (some m) := by
  intro es
  induction es with
  | nil => intro i _ h2; simp at h2
  | cons e rest ih =>
      intro i h1 h2
      have hobj : isObj e = true := h1 e (by simp)
      obtain ⟨kvs, rfl⟩ : ∃ kvs, e = JsonVal.obj kvs := by
        cases e <;> simp [isObj] at hobj ⊢
      by_cases hk : entryHasKeysB kvs = true
      · have h2' : rest.any (fun x => !entryHasAllKeys x) = true := by
          simp only [List.any_cons, entryHasAllKeys, hk, Bool.not_true, Bool.false_or] at h2
          exact h2
        obtain ⟨m, hm⟩ := ih (i + 1) (fun x hx => h1 x (List.mem_cons_of_mem _ hx)) h2'
        exact ⟨m, by simp [validateEntriesV, entryHasKeys_obj, hk, hm, Bind.bind,
          Except.bind, pure, Except.pure]⟩
      · have hk' : entryHasKeysB kvs = false := by simpa using hk
        exact ⟨entryKeysMsg i, by simp [validateEntriesV, entryHasKeys_obj, hk', Bind.bind,
          Except.bind, pure, Except.pure]⟩

/-- A successful dict lookup implies the membership test succeeds. -/
theorem lookup_some_any {kvs : List (String × JsonVal)} {k : String} {v : JsonVal}
    (h : jsonLookup kvs k = some v) : kvs.any (fun kv => kv.1 == k) = true := by
  unfold jsonLookup at h
  cases hf : kvs.find? (fun kv => kv.1 == k) with
  | none => rw [hf] at h; simp at h
  | some kv =>
      have hmem := List.mem_of_find?_eq_some hf
      have hp := List.find?_some hf
      exact List.any_eq_true.2 ⟨kv, hmem, hp⟩

/-- Subscription on a dict returns the looked-up value. -/
theorem pySubscript_of_lookup {kvs : List (String × JsonVal)} {k : String} {v : JsonVal}
    (h : jsonLookup kvs k = some v) : pySubscript (.obj kvs) k = .ok v := by
  unfold jsonLookup at h
  cases hf : kvs.find? (fun kv => kv.1 == k) with
  | none => rw [hf] at h; simp at h
  | some kv =>
      rw [hf] at h
      simp only [Option.map] at h
      injection h with h
      simp [pySubscript, hf, h]

/-- The validator rejects an archive whose entries are dicts when one of
them misses a required key. -/
theorem validateV_entry_bad {kvs : List (String × JsonVal)} {es : List JsonVal}
    (hp : kvs.any (fun kv => kv.1 == "project") = true)
    (hf : jsonLookup kvs "files" = some (.list es))
    (hobj : ∀ e ∈ es, isObj e = true)
    (hbad : es.any (fun e => !entryHasAllKeys e) = true) :
    ∃ m, validateV (.obj kvs) = .ok (some m) := by
  obtain ⟨m, hm⟩ := validateEntriesV_bad es 0 hobj hbad
  refine ⟨m, ?_⟩
  simp [validateV, pyContains, hp, lookup_some_any hf, pySubscript_of_lookup hf, hm,
    Bind.bind, Except.bind, pure, Except.pure]

/-- C4: an archive in which some file entry (all entries being JSON
objects) lacks one of the required keys `name`, `content` or `suffix` is
rejected wholesale before extraction starts: `extract_all` returns
`False`, the written-paths list is empty, the error log holds the
diagnostic, and no file or directory is created. -/
theorem extract_all_rejects_on_missing_entry_key (env : FsEnv) (cfg : FileExtractorCfg)
    (kvs : List (String × JsonVal)) (es : List JsonVal)
    (hl : env.loadResult = .ok (.obj kvs))
    (hp : kvs.any (fun kv => kv.1 == "project") = true)
    (hf : jsonLookup kvs "files" = some (.list es))
    (hobj : ∀ e ∈ es, isObj e = true)
    (hbad : es.any (fun e => !entryHasAllKeys e) = true) :
    ∃ m, extract_all env cfg initState = (⟨[], [m], []⟩, .ok false) ∧
      ∀ fs, runFS env cfg fs = fs := by
  obtain ⟨m, hm⟩ := validateV_entry_bad hp hf hobj hbad
  have hbody : extract_all_body env cfg initState = (stApp initState [] [m] [], .ok false) := by
    unfold extract_all_body
    rw [pyBind_eq_ok (show liftE env.loadResult initState = (initState, .ok (.obj kvs)) by
          simp [liftE, hl]),
      pyBind_eq_ok (validate_shape_bad hm initState), if_pos (by decide)]
    simp [pyPure]
  have hall : extract_all env cfg initState = (⟨[], [m], []⟩, .ok false) := by
    rw [extract_all, pyTryCatch_eq_ok hbody]
    simp [stApp, initState]
  exact ⟨m, hall, fun fs => by rw [runFS, hall]; rfl⟩

/-- C7: when the source cannot be loaded (file not found or malformed
JSON syntax), `extract_all` returns `False` with the corresponding error
appended, the written-paths list is empty and no file or directory is
created. -/
theorem extract_all_source_error_no_mutation (env : FsEnv) (cfg : FileExtractorCfg)
    (m : String)
    (h : env.loadResult = .error (.fileNotFound m) ∨ env.loadResult = .error (.jsonDecode m)) :
    ∃ em, extract_all env cfg initState = (⟨[], [em], []⟩, .ok false) ∧
      ∀ fs, runFS env cfg fs = fs := by
  cases h with
  | inl hl =>
      have hbody : extract_all_body env cfg initState =
          (initState, .error (.fileNotFound m)) := by
        unfold extract_all_body
        exact pyBind_eq_error (by simp [liftE, hl]) _
      have hall : extract_all env cfg initState =
          (⟨[], ["JSON file not found: " ++ cfg.json_file_path], []⟩, .ok false) := by
        rw [extract_all, pyTryCatch_eq_error hbody]
        have := handler_branch_shape ("JSON file not found: " ++ cfg.json_file_path) initState
        rw [show stApp initState [] ["JSON file not found: " ++ cfg.json_file_path] [] =
          (⟨[], ["JSON file not found: " ++ cfg.json_file_path], []⟩ : ExtractorState) from by
            simp [stApp, initState]] at this
        exact this
      exact ⟨_, hall, fun fs => by rw [runFS, hall]; rfl⟩
  | inr hl =>
      have hbody : extract_all_body env cfg initState =
          (initState, .error (.jsonDecode m)) := by
        unfold extract_all_body
        exact pyBind_eq_error (by simp [liftE, hl]) _
      have hall : extract_all env cfg initState =
          (⟨[], ["Invalid JSON format: " ++ m], []⟩, .ok false) := by
        rw [extract_all, pyTryCatch_eq_error hbody]
        have := handler_branch_shape ("Invalid JSON format: " ++ m) initState
        rw [show stApp initState [] ["Invalid JSON format: " ++ m] [] =
          (⟨[], ["Invalid JSON format: " ++ m], []⟩ : ExtractorState) from by
            simp [stApp, initState]] at this
        exact this
      exact ⟨_, hall, fun fs => by rw [runFS, hall]; rfl⟩

/-- C5 (amended): for every file entry that is a JSON object, any
exception inside the `try` body of `extract_file` is caught there: the
method appends `f"Failed to extract file {name}: {e}"` naming the entry
and returns `False`, and the extraction loop proceeds to the subsequent
entries in order from the updated state. -/
theorem extract_file_dict_entry_isolated (env : FsEnv) (cfg : FileExtractorCfg)
    (kvs : List (String × JsonVal)) (post : List JsonVal) (count : Nat)
    (s : ExtractorState) (ex : PyExn) (ops : List FsOp)
    (hfail : efTry env cfg (.obj kvs) = (ops, .error ex)) :
    extract_file env cfg (.obj kvs) s =
      (stApp s [] ["Failed to extract file " ++ pyStr (entryNameD kvs) ++ ": " ++ ex.msg] ops,
       .ok false) ∧
    extract_loop env cfg (.obj kvs :: post) count s =
      extract_loop env cfg post count
        (stApp s [] ["Failed to extract file " ++ pyStr (entryNameD kvs) ++ ": " ++ ex.msg]
          ops) := by
  have h1 : extract_file env cfg (.obj kvs) s =
      (stApp s [] ["Failed to extract file " ++ pyStr (entryNameD kvs) ++ ": " ++ ex.msg] ops,
       .ok false) := by
    simp [extract_file, hfail, stApp]
  refine ⟨h1, ?_⟩
  show pyBind (extract_file env cfg (.obj kvs))
    (fun ok => extract_loop env cfg post (if ok then count + 1 else count)) s = _
  rw [pyBind_eq_ok h1, if_neg (by decide)]

/-- C5 counterexample: the claim fails as stated.  A file entry that is a
JSON array containing the three key names passes validation, but the
`except` clause of `extract_file` then evaluates `file_obj.get`, which
raises its own `AttributeError`: the failure is not caught, no error
naming the entry is appended by `extract_file`, and the loop does not
reach the subsequent valid entry (the run ends with only the propagated
error, and nothing is extracted). -/
theorem extract_file_nondict_entry_raises :
    validateV archC5 = .ok none ∧
    extract_file envC5 cfgW entryL initState =
      (initState, .error (.attrError (sq ++ "list" ++ sq ++ " object has no attribute "
        ++ sq ++ "get" ++ sq))) ∧
    (extract_all envC5 cfgW initState).1.extracted_files = [] ∧
    (extract_all envC5 cfgW initState).1.errors =
      ["Unexpected error: " ++ sq ++ "list" ++ sq ++ " object has no attribute "
        ++ sq ++ "get" ++ sq] := by
  refine ⟨rfl, rfl, rfl, rfl⟩

theorem validator_entries_no_raise :
    ∀ (es : List JsonVal) (i : Nat), (∀ e ∈ es, isObj e = true) →
      ∃ r, validateEntriesV es i = .ok r := by
  intro es
  induction es with
  | nil => intro i _; exact ⟨none, rfl⟩
  | cons e rest ih =>
      intro i h1
      have hobj : isObj e = true := h1 e (by simp)
      obtain ⟨kvs, rfl⟩ : ∃ kvs, e = JsonVal.obj kvs := by
        cases e <;> simp [isObj] at hobj ⊢
      cases hk : entryHasKeysB kvs with
      | true =>
          obtain ⟨r, hr⟩ := ih (i + 1) (fun x hx => h1 x (List.mem_cons_of_mem _ hx))
          exact ⟨r, by simp [validateEntriesV, entryHasKeys_obj, hk, hr, Bind.bind,
            Except.bind, pure, Except.pure]⟩
      | false =>
          exact ⟨some (entryKeysMsg i), by simp [validateEntriesV, entryHasKeys_obj, hk,
            Bind.bind, Except.bind, pure, Except.pure]⟩

/-- A positive membership test on a dict means the lookup finds a pair. -/
theorem any_key_lookup {kvs : List (String × JsonVal)} {k : String}
    (h : kvs.any (fun kv => kv.1 == k) = true) : ∃ v, jsonLookup kvs k = some v := by
  obtain ⟨kv, hmem, hp⟩ := List.any_eq_true.1 h
  unfold jsonLookup
  cases hf : kvs.find? (fun kv => kv.1 == k) with
  | some kv2 => exact ⟨kv2.2, by simp⟩
  | none =>
      have := List.find?_eq_none.1 hf kv hmem
      exact absurd hp this

/-- On a dict archive whose `files` entries (if `files` is a list) are
all dicts, the validator never raises. -/
theorem validateV_obj_no_raise (kvs : List (String × JsonVal))
    (hshape : entriesAllObjB kvs = true) : ∃ vr, validateV (.obj kvs) = .ok vr := by
  cases hp : kvs.any (fun kv => kv.1 == "project") with
  | false =>
      exact ⟨some missingKeysMsg, by simp [validateV, pyContains, hp, Bind.bind, Except.bind,
        pure, Except.pure]⟩
  | true =>
    cases hfa : kvs.any (fun kv => kv.1 == "files") with
    | false =>
        exact ⟨some missingKeysMsg, by simp [validateV, pyContains, hp, hfa, Bind.bind,
          Except.bind, pure, Except.pure]⟩
    | true =>
        obtain ⟨v, hv⟩ := any_key_lookup hfa
        cases v with
        | list es =>
            have hes : ∀ e ∈ es, isObj e = true := by
              have := hshape
              unfold entriesAllObjB at this
              rw [hv] at this
              exact List.all_eq_true.1 this
            obtain ⟨r, hr⟩ := validator_entries_no_raise es 0 hes
            exact ⟨r, by simp [validateV, pyContains, hp, hfa, pySubscript_of_lookup hv, hr,
              Bind.bind, Except.bind, pure, Except.pure]⟩
        | str a =>
            exact ⟨some (sq ++ "files" ++ sq ++ " must be a list"), by
              simp [validateV, pyContains, hp, hfa, pySubscript_of_lookup hv, Bind.bind,
                Except.bind, pure, Except.pure]⟩
        | num a =>
            exact ⟨some (sq ++ "files" ++ sq ++ " must be a list"), by
              simp [validateV, pyContains, hp, hfa, pySubscript_of_lookup hv, Bind.bind,
                Except.bind, pure, Except.pure]⟩
        | bool a =>
            exact ⟨some (sq ++ "files" ++ sq ++ " must be a list"), by
              simp [validateV, pyContains, hp, hfa, pySubscript_of_lookup hv, Bind.bind,
                Except.bind, pure, Except.pure]⟩
        | null =>
            exact ⟨some (sq ++ "files" ++ sq ++ " must be a list"), by
              simp [validateV, pyContains, hp, hfa, pySubscript_of_lookup hv, Bind.bind,
                Except.bind, pure, Except.pure]⟩
        | obj kvs2 =>
            exact ⟨some (sq ++ "files" ++ sq ++ " must be a list"), by
              simp [validateV, pyContains, hp, hfa, pySubscript_of_lookup hv, Bind.bind,
                Except.bind, pure, Except.pure]⟩

/-- On a dict entry `extract_file` never lets an exception out. -/
theorem extract_file_obj_no_raise (env : FsEnv) (cfg : FileExtractorCfg)
    (kvs : List (String × JsonVal)) (s : ExtractorState) :
    exceptOk (extract_file env cfg (.obj kvs) s).2 = true := by
  rcases h : efTry env cfg (.obj kvs) with ⟨ops, res⟩
  cases res with
  | ok dest => simp [extract_file, h, exceptOk]
  | error e => simp [extract_file, h, exceptOk]

/-- C8 counterexample: the claim fails as stated.  On a mkdir failure,
`create_directory_structure` does append a diagnostic but then RE-RAISES
the exception to its caller instead of returning a result. -/
theorem create_directory_structure_reraises :
    create_directory_structure envC8 cfgW initState =
      (⟨[], ["Failed to create directory ezunder_extracted: Permission denied"], []⟩,
       .error (.osError "Permission denied")) := rfl

/-- C8 (amended): the validator (on dict archives whose entries are
dicts), the per-entry writer (on dict entries) and both scaffold writers
(the manifest writer once its metadata dict is built, which happens
outside its `try` block) convert every internal failure into an appended
error-log entry plus a normal return; `create_directory_structure`
instead appends its entry and re-raises, and that exception is caught at
the `extract_all` boundary, which always returns a boolean. -/
theorem component_error_conversion_amended (env : FsEnv) (cfg : FileExtractorCfg)
    (data entry : JsonVal) (kvs : List (String × JsonVal)) (s : ExtractorState) :
    (entriesAllObjB kvs = true →
      exceptOk (validate_json_structure (.obj kvs) s).2 = true) ∧
    (∀ txt, buildPackageJson data = .ok txt →
      exceptOk (create_package_json env cfg data s).2 = true) ∧
    exceptOk (create_env_template env cfg s).2 = true ∧
    (isObj entry = true → exceptOk (extract_file env cfg entry s).2 = true) ∧
    (∀ m, env.mkdirFail (pathStr cfg.output_directory) = some m →
      create_directory_structure env cfg s =
        (stApp s [] ["Failed to create directory " ++ pathStr cfg.output_directory
          ++ ": " ++ m] [], .error (.osError m))) ∧
    exceptOk (extract_all env cfg s).2 = true := by
  refine ⟨?_, ?_, ?_, ?_, ?_, ?_⟩
  · intro hshape
    obtain ⟨vr, hvr⟩ := validateV_obj_no_raise kvs hshape
    cases vr with
    | none => simp [validate_shape_ok hvr, exceptOk]
    | some m => simp [validate_shape_bad hvr, exceptOk]
  · intro txt htxt
    obtain ⟨de, dt, h⟩ := cpj_shape_ok htxt env cfg s
    simp [h, exceptOk]
  · obtain ⟨de, dt, h⟩ := cet_shape env cfg s
    simp [h, exceptOk]
  · intro hobj
    obtain ⟨kvs2, rfl⟩ : ∃ kvs2, entry = JsonVal.obj kvs2 := by
      cases entry <;> simp [isObj] at hobj ⊢
    exact extract_file_obj_no_raise env cfg kvs2 s
  · intro m hm
    exact cds_shape_fail hm s
  · obtain ⟨dx, de, dt, _, h⟩ := extract_all_result env cfg s
    simp [h, exceptOk]

/-- C8 witness: the amended statement at a concrete run whose mkdir
raises, with a well-formed archive, a dict entry and dict metadata. -/
theorem component_error_conversion_amended_witness :
    exceptOk (validate_json_structure (.obj kvsA1) initState).2 = true ∧
    exceptOk (create_package_json envC8 cfgW archC1 initState).2 = true ∧
    exceptOk (create_env_template envC8 cfgW initState).2 = true ∧
    exceptOk (extract_file envC8 cfgW (.obj kvsW5) initState).2 = true ∧
    create_directory_structure envC8 cfgW initState =
      (stApp initState [] ["Failed to create directory " ++ pathStr cfgW.output_directory
        ++ ": " ++ "Permission denied"] [], .error (.osError "Permission denied")) ∧
    exceptOk (extract_all envC8 cfgW initState).2 = true := by
  obtain ⟨h1, h2, h3, h4, h5, h6⟩ :=
    component_error_conversion_amended envC8 cfgW archC1 (.obj kvsW5) kvsA1 initState
  exact ⟨h1 rfl, h2 _ rfl, h3, h4 rfl, h5 "Permission denied" rfl, h6⟩

/-- Splitting never yields an empty segment list. -/
theorem splitSlash_ne_nil (l : List Char) : splitSlash l ≠ [] := by
  cases l with
  | nil => simp [splitSlash]
  | cons c rest =>
      unfold splitSlash
      by_cases hc : c = Char.ofNat 47
      · simp [hc]
      · simp only [if_neg hc]
        cases h : splitSlash rest <;> simp

/-- A head character distributes over the slash join. -/
theorem joinSlash_cons_cons (c : Char) (g : List Char) (gs : List (List Char)) :
    joinSlash ((c :: g) :: gs) = c :: joinSlash (g :: gs) := by
  cases gs <;> rfl

/-- Joining undoes splitting. -/
theorem joinSlash_splitSlash (l : List Char) : joinSlash (splitSlash l) = l := by
  induction l with
  | nil => rfl
  | cons c rest ih =>
      unfold splitSlash
      by_cases hc : c = Char.ofNat 47
      · rw [if_pos hc]
        cases h : splitSlash rest with
        | nil => exact absurd h (splitSlash_ne_nil rest)
        | cons g gs =>
            have hd : joinSlash ([] :: g :: gs) = Char.ofNat 47 :: joinSlash (g :: gs) := rfl
            rw [hd, ← h, ih, hc]
      · rw [if_neg hc]
        cases h : splitSlash rest with
        | nil => exact absurd h (splitSlash_ne_nil rest)
        | cons g gs => rw [joinSlash_cons_cons, ← h, ih]

/-- Joining an append of two nonempty segment lists inserts a slash. -/
theorem joinSlash_append (B : List (List Char)) (hB : B ≠ []) :
    ∀ A : List (List Char), A ≠ [] →
      joinSlash (A ++ B) = joinSlash A ++ Char.ofNat 47 :: joinSlash B := by
  intro A
  induction A with
  | nil => intro hA; exact absurd rfl hA
  | cons g A' ih =>
      intro _
      cases A' with
      | nil =>
          cases B with
          | nil => exact absurd rfl hB
          | cons b bs => rfl
      | cons g2 A'' =>
          have h1 : joinSlash ((g :: g2 :: A'') ++ B) =
              g ++ Char.ofNat 47 :: joinSlash ((g2 :: A'') ++ B) := rfl
          have h2 : joinSlash (g :: g2 :: A'') =
              g ++ Char.ofNat 47 :: joinSlash (g2 :: A'') := rfl
          rw [h1, ih (by simp), h2]
          simp

/-- On a clean segment pathlib parsing keeps every component. -/
theorem segParts_of_clean {s : String} (h : cleanSeg s = true) :
    segParts s = splitSlash s.data := by
  unfold cleanSeg at h
  exact List.filter_eq_self.2 (fun a ha => List.all_eq_true.1 h a ha)

/-- A clean segment is not absolute. -/
theorem segAbsolute_of_clean {s : String} (h : cleanSeg s = true) :
    segAbsolute s = false := by
  unfold cleanSeg at h
  unfold segAbsolute
  cases hd : s.data with
  | nil => rfl
  | cons c rest =>
      by_cases hc : c = Char.ofNat 47
      · exfalso
        have hmem : [] ∈ splitSlash s.data := by
          rw [hd, hc]
          unfold splitSlash
          rw [if_pos rfl]
          exact List.mem_cons_self _ _
        have := List.all_eq_true.1 h [] hmem
        simp [keepComp] at this
      · simp [hc]

/-- Destination of a single clean join: plain concatenation with a
slash. -/
theorem pathStr_join2 {r f : String} (hr : cleanSeg r = true) (hf : cleanSeg f = true) :
    pathStr (pathJoin (pathOfString r) f) = r ++ "/" ++ f := by
  have hOf : pathOfString r = ⟨false, splitSlash r.data⟩ := by
    unfold pathOfString
    rw [segAbsolute_of_clean hr, segParts_of_clean hr]
  have hJ : pathJoin ⟨false, splitSlash r.data⟩ f =
      ⟨false, splitSlash r.data ++ splitSlash f.data⟩ := by
    unfold pathJoin
    rw [segAbsolute_of_clean hf, segParts_of_clean hf]
    simp
  rw [hOf, hJ]
  unfold pathStr
  simp only [List.isEmpty_eq_true, List.append_eq_nil]
  rw [if_neg (by simp), if_neg (by
    rintro ⟨h1, h2⟩
    exact splitSlash_ne_nil _ h1)]
  rw [joinSlash_append (splitSlash f.data) (splitSlash_ne_nil _) _ (splitSlash_ne_nil _),
    joinSlash_splitSlash, joinSlash_splitSlash]
  cases r with
  | mk rl =>
      cases f with
      | mk fl =>
          have hrhs : String.mk rl ++ "/" ++ String.mk fl =
              String.mk ((rl ++ [Char.ofNat 47]) ++ fl) := rfl
          rw [hrhs]
          exact congrArg String.mk (by simp)

/-- Destination of a double clean join. -/
theorem pathStr_join3 {r p f : String} (hr : cleanSeg r = true) (hp : cleanSeg p = true)
    (hf : cleanSeg f = true) :
    pathStr (pathJoin (pathJoin (pathOfString r) p) f) = r ++ "/" ++ p ++ "/" ++ f := by
  have hOf : pathOfString r = ⟨false, splitSlash r.data⟩ := by
    unfold pathOfString
    rw [segAbsolute_of_clean hr, segParts_of_clean hr]
  have hJ1 : pathJoin ⟨false, splitSlash r.data⟩ p =
      ⟨false, splitSlash r.data ++ splitSlash p.data⟩ := by
    unfold pathJoin
    rw [segAbsolute_of_clean hp, segParts_of_clean hp]
    simp
  have hJ2 : pathJoin ⟨false, splitSlash r.data ++ splitSlash p.data⟩ f =
      ⟨false, (splitSlash r.data ++ splitSlash p.data) ++ splitSlash f.data⟩ := by
    unfold pathJoin
    rw [segAbsolute_of_clean hf, segParts_of_clean hf]
    simp
  rw [hOf, hJ1, hJ2]
  unfold pathStr
  simp only [List.isEmpty_eq_true, List.append_eq_nil]
  rw [if_neg (by simp), if_neg (by
    rintro ⟨⟨h1, h2⟩, h3⟩
    exact splitSlash_ne_nil _ h1)]
  rw [joinSlash_append (splitSlash f.data) (splitSlash_ne_nil _) _ (by
      rintro hcontra
      rcases List.append_eq_nil.1 hcontra with ⟨h1, h2⟩
      exact splitSlash_ne_nil _ h1),
    joinSlash_append (splitSlash p.data) (splitSlash_ne_nil _) _ (splitSlash_ne_nil _),
    joinSlash_splitSlash, joinSlash_splitSlash, joinSlash_splitSlash]
  cases r with
  | mk rl =>
      cases p with
      | mk pl =>
          cases f with
          | mk fl =>
              have hrhs : String.mk rl ++ "/" ++ String.mk pl ++ "/" ++ String.mk fl =
                  String.mk (((rl ++ [Char.ofNat 47]) ++ pl ++ [Char.ofNat 47]) ++ fl) := rfl
              rw [hrhs]
              exact congrArg String.mk (by simp)

/-- Parent of the resolved destination, when the filename is a single
component: the two leading joins. -/
theorem pathParent_join3 {r p f : String} (hr : cleanSeg r = true) (hp : cleanSeg p = true)
    (hf : cleanSeg f = true) (hfs : splitSlash f.data = [f.data]) :
    pathStr (pathParent (pathJoin (pathJoin (pathOfString r) p) f)) = r ++ "/" ++ p := by
  have hOf : pathOfString r = ⟨false, splitSlash r.data⟩ := by
    unfold pathOfString
    rw [segAbsolute_of_clean hr, segParts_of_clean hr]
  have hJ1 : pathJoin ⟨false, splitSlash r.data⟩ p =
      ⟨false, splitSlash r.data ++ splitSlash p.data⟩ := by
    unfold pathJoin
    rw [segAbsolute_of_clean hp, segParts_of_clean hp]
    simp
  have hJ2 : pathJoin ⟨false, splitSlash r.data ++ splitSlash p.data⟩ f =
      ⟨false, (splitSlash r.data ++ splitSlash p.data) ++ splitSlash f.data⟩ := by
    unfold pathJoin
    rw [segAbsolute_of_clean hf, segParts_of_clean hf]
    simp
  rw [hOf, hJ1, hJ2]
  unfold pathParent
  simp only [hfs]
  rw [show ((splitSlash r.data ++ splitSlash p.data) ++ [f.data]).dropLast =
      splitSlash r.data ++ splitSlash p.data from List.dropLast_concat ..]
  unfold pathStr
  simp only [List.isEmpty_eq_true, List.append_eq_nil]
  rw [if_neg (by simp), if_neg (by
    rintro ⟨h1, h2⟩
    exact splitSlash_ne_nil _ h1)]
  rw [joinSlash_append (splitSlash p.data) (splitSlash_ne_nil _) _ (splitSlash_ne_nil _),
    joinSlash_splitSlash, joinSlash_splitSlash]
  cases r with
  | mk rl =>
      cases p with
      | mk pl =>
          have hrhs : String.mk rl ++ "/" ++ String.mk pl =
              String.mk ((rl ++ [Char.ofNat 47]) ++ pl) := rfl
          rw [hrhs]
          exact congrArg String.mk (by simp)

/-- C6 (amended): for every file entry with string-valued fields whose
output root, `path` and `name.suffix` are clean relative path strings
(no empty, "." or absolute components - pathlib collapses those), the
destination is `root/path/name.suffix` when `path` is non-empty and
`root/name.suffix` when the `path` key is absent; the suffix is joined
with a literal dot (so a suffix with a leading dot yields a double dot),
and the file written at the destination contains exactly the entry
content. -/
theorem dest_path_clean_formula (env : FsEnv) (jp r p n c x : String) (s : ExtractorState)
    (hr : cleanSeg r = true) (hp : cleanSeg p = true) (hpne : p ≠ "")
    (hfc : cleanSeg (n ++ "." ++ x) = true)
    (hfs : splitSlash (n ++ "." ++ x).data = [(n ++ "." ++ x).data])
    (hmk : env.mkdirFail (r ++ "/" ++ p) = none)
    (hw1 : env.openWriteFail (r ++ "/" ++ p ++ "/" ++ (n ++ "." ++ x)) = none)
    (hw0 : env.openWriteFail (r ++ "/" ++ (n ++ "." ++ x)) = none) :
    (extract_file env ⟨jp, pathOfString r⟩
        (.obj [("name", .str n), ("content", .str c), ("suffix", .str x), ("path", .str p)])
        s =
      (stApp s [r ++ "/" ++ p ++ "/" ++ (n ++ "." ++ x)] []
        [.mkdir (r ++ "/" ++ p),
         .writeFile (r ++ "/" ++ p ++ "/" ++ (n ++ "." ++ x)) c], .ok true)) ∧
    (∀ fs, (applyTrace fs
        [.mkdir (r ++ "/" ++ p),
         .writeFile (r ++ "/" ++ p ++ "/" ++ (n ++ "." ++ x)) c]).files
          (r ++ "/" ++ p ++ "/" ++ (n ++ "." ++ x)) = some c) ∧
    (extract_file env ⟨jp, pathOfString r⟩
        (.obj [("name", .str n), ("content", .str c), ("suffix", .str x)]) s =
      (stApp s [r ++ "/" ++ (n ++ "." ++ x)] []
        [.writeFile (r ++ "/" ++ (n ++ "." ++ x)) c], .ok true)) ∧
    (∀ fs, (applyTrace fs [.writeFile (r ++ "/" ++ (n ++ "." ++ x)) c]).files
        (r ++ "/" ++ (n ++ "." ++ x)) = some c) := by
  have e1 : pySubscript (.obj [("name", JsonVal.str n), ("content", .str c),
      ("suffix", .str x), ("path", .str p)]) "name" = .ok (.str n) := rfl
  have e2 : pySubscript (.obj [("name", JsonVal.str n), ("content", .str c),
      ("suffix", .str x), ("path", .str p)]) "content" = .ok (.str c) := rfl
  have e3 : pySubscript (.obj [("name", JsonVal.str n), ("content", .str c),
      ("suffix", .str x), ("path", .str p)]) "suffix" = .ok (.str x) := rfl
  have e4 : pyGetD (.obj [("name", JsonVal.str n), ("content", .str c),
      ("suffix", .str x), ("path", .str p)]) "path" (.str "") = .ok (.str p) := rfl
  have f1 : pySubscript (.obj [("name", JsonVal.str n), ("content", .str c),
      ("suffix", .str x)]) "name" = .ok (.str n) := rfl
  have f2 : pySubscript (.obj [("name", JsonVal.str n), ("content", .str c),
      ("suffix", .str x)]) "content" = .ok (.str c) := rfl
  have f3 : pySubscript (.obj [("name", JsonVal.str n), ("content", .str c),
      ("suffix", .str x)]) "suffix" = .ok (.str x) := rfl
  have f4 : pyGetD (.obj [("name", JsonVal.str n), ("content", .str c),
      ("suffix", .str x)]) "path" (.str "") = .ok (.str "") := rfl
  have ht : pyTruthy (.str p) = true := by simp [pyTruthy, hpne]
  have hef1 : efTry env ⟨jp, pathOfString r⟩
      (.obj [("name", .str n), ("content", .str c), ("suffix", .str x), ("path", .str p)]) =
      ([.mkdir (r ++ "/" ++ p),
        .writeFile (r ++ "/" ++ p ++ "/" ++ (n ++ "." ++ x)) c],
       .ok (r ++ "/" ++ p ++ "/" ++ (n ++ "." ++ x))) := by
    simp only [efTry, e1, e2, e3, e4, ht, if_pos, pyStr]
    rw [pathParent_join3 hr hp hfc hfs, hmk, openAndWrite, pathStr_join3 hr hp hfc, hw1]
    rfl
  have hef0 : efTry env ⟨jp, pathOfString r⟩
      (.obj [("name", .str n), ("content", .str c), ("suffix", .str x)]) =
      ([.writeFile (r ++ "/" ++ (n ++ "." ++ x)) c],
       .ok (r ++ "/" ++ (n ++ "." ++ x))) := by
    simp only [efTry, f1, f2, f3, f4, pyStr, pyTruthy]
    rw [if_neg (by simp), openAndWrite, pathStr_join2 hr hfc, hw0]
    simp
  refine ⟨?_, ?_, ?_, ?_⟩
  · simp [extract_file, hef1, stApp]
  · intro fs
    simp [applyTrace, applyOp]
  · simp [extract_file, hef0, stApp]
  · intro fs
    simp [applyTrace, applyOp]

/-- C6 counterexample: the claim fails as stated.  An entry with
`path = "."` (non-empty, so the claim predicts
`root/./name.suffix`) resolves to `root/name.suffix`: pathlib drops "."
components, so the destination does not equal the concatenation
`root/path/name.suffix` for every entry. -/
theorem dest_path_dot_component_collapsed :
    extract_file envOK cfgW entryDot initState =
      (⟨["ezunder_extracted/a.txt"], [],
        [.mkdir "ezunder_extracted", .writeFile "ezunder_extracted/a.txt" "x"]⟩, .ok true) ∧
    "ezunder_extracted/a.txt" ≠ "ezunder_extracted/./a.txt" := by
  exact ⟨rfl, by decide⟩

/-- C6 witness: the amended formula at the spec's own example
(`path = "sub/dir"`, `name = "a"`, `suffix = "txt"`), and the
preserved-double-dot case is an instance of the same formula. -/
theorem dest_path_clean_formula_witness :
    (extract_file envOK ⟨"ezunder_files.json", pathOfString "out"⟩
        (.obj [("name", .str "a"), ("content", .str "hello"), ("suffix", .str "txt"),
               ("path", .str "sub/dir")]) initState =
      (stApp initState ["out" ++ "/" ++ "sub/dir" ++ "/" ++ ("a" ++ "." ++ "txt")] []
        [.mkdir ("out" ++ "/" ++ "sub/dir"),
         .writeFile ("out" ++ "/" ++ "sub/dir" ++ "/" ++ ("a" ++ "." ++ "txt")) "hello"],
       .ok true)) ∧
    (∀ fs, (applyTrace fs
        [.mkdir ("out" ++ "/" ++ "sub/dir"),
         .writeFile ("out" ++ "/" ++ "sub/dir" ++ "/" ++ ("a" ++ "." ++ "txt")) "hello"]).files
          ("out" ++ "/" ++ "sub/dir" ++ "/" ++ ("a" ++ "." ++ "txt")) = some "hello") ∧
    (extract_file envOK ⟨"ezunder_files.json", pathOfString "out"⟩
        (.obj [("name", .str "a"), ("content", .str "hello"), ("suffix", .str "txt")])
        initState =
      (stApp initState ["out" ++ "/" ++ ("a" ++ "." ++ "txt")] []
        [.writeFile ("out" ++ "/" ++ ("a" ++ "." ++ "txt")) "hello"], .ok true)) ∧
    (∀ fs, (applyTrace fs [.writeFile ("out" ++ "/" ++ ("a" ++ "." ++ "txt")) "hello"]).files
        ("out" ++ "/" ++ ("a" ++ "." ++ "txt")) = some "hello") :=
  dest_path_clean_formula envOK "ezunder_files.json" "out" "sub/dir" "a" "hello" "txt"
    initState rfl rfl (by decide) rfl rfl rfl rfl rfl

/-- C5 witness: a concrete dict entry whose write raises (disk full) is
caught, logged with its name, reported as `False`, and the loop moves
on. -/
theorem extract_file_dict_entry_isolated_witness :
    extract_file envW5 cfgW (.obj kvsW5) initState =
      (stApp initState []
        ["Failed to extract file " ++ pyStr (entryNameD kvsW5) ++ ": "
          ++ PyExn.msg (.osError "No space left on device")] [],
       .ok false) ∧
    extract_loop envW5 cfgW (.obj kvsW5 :: []) 0 initState =
      extract_loop envW5 cfgW [] 0
        (stApp initState []
          ["Failed to extract file " ++ pyStr (entryNameD kvsW5) ++ ": "
            ++ PyExn.msg (.osError "No space left on device")] []) :=
  extract_file_dict_entry_isolated envW5 cfgW kvsW5 [] 0 initState
    (.osError "No space left on device") [] rfl

/-- C4 witness: the concrete archive whose single entry misses
`content` is rejected with no extraction and no filesystem effect. -/
theorem extract_all_rejects_on_missing_entry_key_witness :
    (extract_all envC4 cfgW initState).1.extracted_files = [] ∧
    (extract_all envC4 cfgW initState).2 = .ok false ∧
    runFS envC4 cfgW fs0 = fs0 := by
  obtain ⟨m, h1, h2⟩ := extract_all_rejects_on_missing_entry_key envC4 cfgW
    [("project", .str "p"),
     ("files", .list [.obj [("name", .str "a"), ("suffix", .str "txt")]])]
    [.obj [("name", .str "a"), ("suffix", .str "txt")]]
    rfl (by decide) rfl (by decide) (by decide)
  exact ⟨by rw [h1], by rw [h1], h2 fs0⟩

/-- C7 witness: a run whose source file is missing returns `False` and
leaves the filesystem untouched. -/
theorem extract_all_source_error_no_mutation_witness :
    (extract_all envC7 cfgW initState).2 = .ok false ∧ runFS envC7 cfgW fs0 = fs0 := by
  obtain ⟨em, h1, h2⟩ :=
    extract_all_source_error_no_mutation envC7 cfgW "missing" (Or.inl rfl)
  exact ⟨by rw [h1], h2 fs0⟩

/-- C9 witness: re-running the concrete well-formed archive leaves the
extracted file and the output directory unchanged. -/
theorem extract_twice_idempotent_witness :
    (runFS envC1 cfgW (runFS envC1 cfgW fs0)).files "ezunder_extracted/a.txt" =
      (runFS envC1 cfgW fs0).files "ezunder_extracted/a.txt" ∧
    ("ezunder_extracted" ∈ (runFS envC1 cfgW (runFS envC1 cfgW fs0)).dirs ↔
      "ezunder_extracted" ∈ (runFS envC1 cfgW fs0).dirs) := by
  obtain ⟨h1, h2⟩ := extract_twice_idempotent envC1 cfgW archC1 rfl rfl fs0
  exact ⟨h1 _, h2 _⟩

/-- C1 (the code diverges): on a well-formed one-entry archive with
every write succeeding, `extracted_files` does have length N = 1, but
the error log is NOT empty: the orphaned README block always logs a
`NameError` and the missing `create_readme` method always lands an
`AttributeError` in the catch-all handler, so the run also returns
`False`. -/
theorem extract_all_wellformed_run_logs_errors :
    (extract_all envC1 cfgW initState).1.extracted_files = ["ezunder_extracted/a.txt"] ∧
    (extract_all envC1 cfgW initState).1.errors =
      ["Failed to create README.md: " ++ readmeNameErrorMsg,
       "Unexpected error: " ++ createReadmeAttrMsg] ∧
    (extract_all envC1 cfgW initState).2 = .ok false :=
  ⟨rfl, rfl, rfl⟩

/-- C2 (the code diverges): after a validated run with no filesystem
failures, `package.json` and `.env.example` are produced, but
`README.md` is left EMPTY (the orphaned block truncates it and then
raises `NameError` on the undefined `readme_content`), an error is
logged for it, and the scaffold phase is followed by the
`create_readme` `AttributeError` that ends the run through the catch-all
handler. -/
theorem scaffold_phase_readme_empty_and_aborts :
    (runFS envC2 cfgW fs0).files "ezunder_extracted/README.md" = some "" ∧
    (runFS envC2 cfgW fs0).files "ezunder_extracted/.env.example" = some envContent ∧
    (∃ t, (runFS envC2 cfgW fs0).files "ezunder_extracted/package.json" = some t) ∧
    (extract_all envC2 cfgW initState).1.errors =
      ["Failed to create README.md: " ++ readmeNameErrorMsg,
       "Unexpected error: " ++ createReadmeAttrMsg] ∧
    (extract_all envC2 cfgW initState).2 = .ok false :=
  ⟨rfl, rfl, ⟨_, rfl⟩, rfl, rfl⟩

end EZunder
